import Mathlib

/-!
Verification of the chess engine core (bitboard move generator, search and
evaluation) against its natural-language specification.  All 64-bit machine
words of the Rust source are modelled as natural numbers below 2^64, with
wrap-around made explicit where the source relies on it; release-build
semantics are used for the few spots where a debug build would abort on
overflow.
-/

namespace ChessAI

/-- All ones in 64 bits. -/
def u64Mask : Nat := 0xFFFFFFFFFFFFFFFF

/-- Bitwise complement on a 64-bit word, the Rust `!x` on `u64`. -/
def bnot (x : Nat) : Nat := x ^^^ 0xFFFFFFFFFFFFFFFF

/-- Bitwise complement on an 8-bit word, the Rust `!x` on `u8`. -/
def bnot8 (x : Nat) : Nat := x ^^^ 0xFF

/-- `u64::trailing_zeros`: index of the least significant set bit, 64 for 0. -/
def trailingZeros (x : Nat) : Nat :=
  if x = 0 then 64 else
  let p := if x &&& 0xFFFFFFFF = 0 then (x >>> 32, 32) else (x, 0)
  let p := if p.1 &&& 0xFFFF = 0 then (p.1 >>> 16, p.2 + 16) else p
  let p := if p.1 &&& 0xFF = 0 then (p.1 >>> 8, p.2 + 8) else p
  let p := if p.1 &&& 0xF = 0 then (p.1 >>> 4, p.2 + 4) else p
  let p := if p.1 &&& 0x3 = 0 then (p.1 >>> 2, p.2 + 2) else p
  if p.1 &&& 0x1 = 0 then p.2 + 1 else p.2

/-- `u64::leading_zeros`: number of leading zero bits, 64 for 0. -/
def leadingZeros (x : Nat) : Nat :=
  if x = 0 then 64 else
  let p := if x >>> 32 = 0 then (x, 32) else (x >>> 32, 0)
  let p := if p.1 >>> 16 = 0 then (p.1, p.2 + 16) else (p.1 >>> 16, p.2)
  let p := if p.1 >>> 8 = 0 then (p.1, p.2 + 8) else (p.1 >>> 8, p.2)
  let p := if p.1 >>> 4 = 0 then (p.1, p.2 + 4) else (p.1 >>> 4, p.2)
  let p := if p.1 >>> 2 = 0 then (p.1, p.2 + 2) else (p.1 >>> 2, p.2)
  if p.1 >>> 1 = 0 then p.2 + 1 else p.2

/-- `u64::count_ones` (population count), SWAR implementation. -/
def countOnes (x : Nat) : Nat :=
  let a := x - ((x >>> 1) &&& 0x5555555555555555)
  let b := (a &&& 0x3333333333333333) + ((a >>> 2) &&& 0x3333333333333333)
  let c := (b + (b >>> 4)) &&& 0x0F0F0F0F0F0F0F0F
  ((c * 0x0101010101010101) &&& u64Mask) >>> 56

/-- `u64::swap_bytes`: byte reversal of the eight bytes of the word. -/
def swapBytes (x : Nat) : Nat :=
  (x / 2 ^ 56 % 256) + (x / 2 ^ 48 % 256) * 2 ^ 8 + (x / 2 ^ 40 % 256) * 2 ^ 16 +
    (x / 2 ^ 32 % 256) * 2 ^ 24 + (x / 2 ^ 24 % 256) * 2 ^ 32 +
    (x / 2 ^ 16 % 256) * 2 ^ 40 + (x / 2 ^ 8 % 256) * 2 ^ 48 + (x % 256) * 2 ^ 56

-- Board masks (src/bitboard.rs)
def A_FILE : Nat := 0x0101010101010101
def H_FILE : Nat := 0x8080808080808080
def NOT_A_FILE : Nat := 0xfefefefefefefefe
def NOT_B_FILE : Nat := 0xfdfdfdfdfdfdfdfd
def NOT_G_FILE : Nat := 0xbfbfbfbfbfbfbfbf
def NOT_H_FILE : Nat := 0x7f7f7f7f7f7f7f7f
def NOT_AB_FILE : Nat := NOT_A_FILE &&& NOT_B_FILE
def NOT_GH_FILE : Nat := NOT_G_FILE &&& NOT_H_FILE
def RANK1 : Nat := 0x00000000000000ff
def RANK3 : Nat := 0x0000000000ff0000
def RANK4 : Nat := 0x00000000ff000000
def RANK5 : Nat := 0x000000ff00000000
def RANK6 : Nat := 0x0000ff0000000000
def RANK8 : Nat := 0xff00000000000000

-- Move flags
def QUITE_MOVE : Nat := 0b0000
def DOUBLE_PAWN_PUSH : Nat := 0b0001
def KING_CASTLE : Nat := 0b0010
def QUEEN_CASTLE : Nat := 0b0011
def CAPTURE : Nat := 0b0100
def EP_CAPTURE : Nat := 0b0101
def KNIGHT_PROMOTION : Nat := 0b1000
def BISHOP_PROMOTION : Nat := 0b1001
def ROOK_PROMOTION : Nat := 0b1010
def QUEEN_PROMOTION : Nat := 0b1011

-- Castling state bits
def WHITE_A_ROOK : Nat := 0b000001
def WHITE_H_ROOK : Nat := 0b000010
def WHITE_KING : Nat := 0b000100
def BLACK_A_ROOK : Nat := 0b001000
def BLACK_H_ROOK : Nat := 0b010000
def BLACK_KING : Nat := 0b100000
def CASTLE_WHITE_KING : Nat := WHITE_KING ||| WHITE_H_ROOK
def CASTLE_WHITE_QUEEEN : Nat := WHITE_KING ||| WHITE_A_ROOK
def CASTLE_BLACK_KING : Nat := BLACK_KING ||| BLACK_H_ROOK
def CASTLE_BLACK_QUEEN : Nat := BLACK_KING ||| BLACK_A_ROOK

/-- The colors, with the discriminants of src/board.rs. -/
inductive Color where
  | White
  | Black
deriving DecidableEq

/-- The piece kinds, with the discriminants of src/board.rs. -/
inductive Piece where
  | King
  | Queen
  | Rook
  | Bishop
  | Knight
  | Pawn
deriving DecidableEq

def Color.toNat : Color → Nat
  | .White => 0
  | .Black => 1

def Piece.toNat : Piece → Nat
  | .King => 0
  | .Queen => 1
  | .Rook => 2
  | .Bishop => 3
  | .Knight => 4
  | .Pawn => 5

/-- The twelve piece bitboards, indexed color * 6 + piece as in the source. -/
structure BitBoard where
  wK : Nat
  wQ : Nat
  wR : Nat
  wB : Nat
  wN : Nat
  wP : Nat
  bK : Nat
  bQ : Nat
  bR : Nat
  bB : Nat
  bN : Nat
  bP : Nat
deriving DecidableEq

namespace BitBoard

/-- Array read `self.0[color as usize * 6 + piece as usize]`. -/
def get_set (bb : BitBoard) (color : Color) (piece : Piece) : Nat :=
  match color, piece with
  | .White, .King => bb.wK
  | .White, .Queen => bb.wQ
  | .White, .Rook => bb.wR
  | .White, .Bishop => bb.wB
  | .White, .Knight => bb.wN
  | .White, .Pawn => bb.wP
  | .Black, .King => bb.bK
  | .Black, .Queen => bb.bQ
  | .Black, .Rook => bb.bR
  | .Black, .Bishop => bb.bB
  | .Black, .Knight => bb.bN
  | .Black, .Pawn => bb.bP

/-- Functional update of the board of one (color, piece) pair. -/
def with_set (bb : BitBoard) (color : Color) (piece : Piece) (v : Nat) : BitBoard :=
  match color, piece with
  | .White, .King => { bb with wK := v }
  | .White, .Queen => { bb with wQ := v }
  | .White, .Rook => { bb with wR := v }
  | .White, .Bishop => { bb with wB := v }
  | .White, .Knight => { bb with wN := v }
  | .White, .Pawn => { bb with wP := v }
  | .Black, .King => { bb with bK := v }
  | .Black, .Queen => { bb with bQ := v }
  | .Black, .Rook => { bb with bR := v }
  | .Black, .Bishop => { bb with bB := v }
  | .Black, .Knight => { bb with bN := v }
  | .Black, .Pawn => { bb with bP := v }

/-- `set_piece`: or the bit `1 << index` into the board (shift masked to 64
as in a release build). -/
def set_piece (bb : BitBoard) (index : Nat) (color : Color) (piece : Piece) : BitBoard :=
  bb.with_set color piece (bb.get_set color piece ||| (1 <<< (index % 64)))

/-- `clear_piece`: and the complement of the bit into the board. -/
def clear_piece (bb : BitBoard) (index : Nat) (color : Color) (piece : Piece) : BitBoard :=
  bb.with_set color piece (bb.get_set color piece &&& bnot (1 <<< (index % 64)))

def empty_squares (bb : BitBoard) : Nat :=
  bnot bb.wK &&& bnot bb.wQ &&& bnot bb.wR &&& bnot bb.wB &&& bnot bb.wN &&& bnot bb.wP &&&
    bnot bb.bK &&& bnot bb.bQ &&& bnot bb.bR &&& bnot bb.bB &&& bnot bb.bN &&& bnot bb.bP

def occupied_squares (bb : BitBoard) : Nat :=
  bb.wK ||| bb.wQ ||| bb.wR ||| bb.wB ||| bb.wN ||| bb.wP |||
    bb.bK ||| bb.bQ ||| bb.bR ||| bb.bB ||| bb.bN ||| bb.bP

def color_pieces (bb : BitBoard) (color : Color) : Nat :=
  match color with
  | .White => bb.wK ||| bb.wQ ||| bb.wR ||| bb.wB ||| bb.wN ||| bb.wP
  | .Black => bb.bK ||| bb.bQ ||| bb.bR ||| bb.bB ||| bb.bN ||| bb.bP

/-- `get_piece`: which piece occupies a square, probing the twelve boards in
the exact order of the source (black pawn first, white king last). -/
def get_piece (bb : BitBoard) (index : Nat) : Option (Color × Piece) :=
  let mask := 1 <<< (index % 64)
  if bb.bP &&& mask ≠ 0 then some (Color.Black, Piece.Pawn)
  else if bb.bR &&& mask ≠ 0 then some (Color.Black, Piece.Rook)
  else if bb.bB &&& mask ≠ 0 then some (Color.Black, Piece.Bishop)
  else if bb.bN &&& mask ≠ 0 then some (Color.Black, Piece.Knight)
  else if bb.bQ &&& mask ≠ 0 then some (Color.Black, Piece.Queen)
  else if bb.bK &&& mask ≠ 0 then some (Color.Black, Piece.King)
  else if bb.wP &&& mask ≠ 0 then some (Color.White, Piece.Pawn)
  else if bb.wR &&& mask ≠ 0 then some (Color.White, Piece.Rook)
  else if bb.wB &&& mask ≠ 0 then some (Color.White, Piece.Bishop)
  else if bb.wN &&& mask ≠ 0 then some (Color.White, Piece.Knight)
  else if bb.wQ &&& mask ≠ 0 then some (Color.White, Piece.Queen)
  else if bb.wK &&& mask ≠ 0 then some (Color.White, Piece.King)
  else none

/-- `flip_board`: byte-swap every board and swap the color pairs. -/
def flip_board (bb : BitBoard) : BitBoard where
  wK := swapBytes bb.bK
  wQ := swapBytes bb.bQ
  wR := swapBytes bb.bR
  wB := swapBytes bb.bB
  wN := swapBytes bb.bN
  wP := swapBytes bb.bP
  bK := swapBytes bb.wK
  bQ := swapBytes bb.wQ
  bR := swapBytes bb.wR
  bB := swapBytes bb.wB
  bN := swapBytes bb.wN
  bP := swapBytes bb.wP

end BitBoard

/-- The engine position state of src/bitboard.rs.  `en_passant` is a square
index with 64 as the distinguished none value, `half_moves` is a `u8`,
`full_moves` a `u16`. -/
structure BitBoardState where
  bitboard : BitBoard
  active_color : Color
  castling : Nat
  en_passant : Nat
  half_moves : Nat
  full_moves : Nat
deriving DecidableEq

-- One-step direction shifts
def south_one (b : Nat) : Nat := b >>> 8
def north_one (b : Nat) : Nat := (b <<< 8) &&& u64Mask
def east_one (b : Nat) : Nat := ((b <<< 1) &&& u64Mask) &&& NOT_A_FILE
def west_one (b : Nat) : Nat := (b >>> 1) &&& NOT_H_FILE
def north_east_one (b : Nat) : Nat := ((b <<< 9) &&& u64Mask) &&& NOT_A_FILE
def north_west_one (b : Nat) : Nat := ((b <<< 7) &&& u64Mask) &&& NOT_H_FILE
def south_east_one (b : Nat) : Nat := (b >>> 7) &&& NOT_A_FILE
def south_west_one (b : Nat) : Nat := (b >>> 9) &&& NOT_H_FILE
def north_north_east (b : Nat) : Nat := ((b <<< 17) &&& u64Mask) &&& NOT_A_FILE
def north_east_east (b : Nat) : Nat := ((b <<< 10) &&& u64Mask) &&& NOT_AB_FILE
def south_east_east (b : Nat) : Nat := (b >>> 6) &&& NOT_AB_FILE
def south_south_east (b : Nat) : Nat := (b >>> 15) &&& NOT_A_FILE
def north_north_west (b : Nat) : Nat := ((b <<< 15) &&& u64Mask) &&& NOT_H_FILE
def north_west_west (b : Nat) : Nat := ((b <<< 6) &&& u64Mask) &&& NOT_GH_FILE
def south_west_west (b : Nat) : Nat := (b >>> 10) &&& NOT_GH_FILE
def south_south_west (b : Nat) : Nat := (b >>> 17) &&& NOT_H_FILE

-- Kogge-Stone fills
def fill_north (rook empty : Nat) : Nat :=
  let rook := rook ||| (empty &&& ((rook <<< 8) &&& u64Mask))
  let empty := empty &&& ((empty <<< 8) &&& u64Mask)
  let rook := rook ||| (empty &&& ((rook <<< 16) &&& u64Mask))
  let empty := empty &&& ((empty <<< 16) &&& u64Mask)
  rook ||| (empty &&& ((rook <<< 32) &&& u64Mask))

def fill_south (rook empty : Nat) : Nat :=
  let rook := rook ||| (empty &&& (rook >>> 8))
  let empty := empty &&& (empty >>> 8)
  let rook := rook ||| (empty &&& (rook >>> 16))
  let empty := empty &&& (empty >>> 16)
  rook ||| (empty &&& (rook >>> 32))

def fill_east (rook e : Nat) : Nat :=
  let empty := e &&& NOT_A_FILE
  let rook := rook ||| (empty &&& ((rook <<< 1) &&& u64Mask))
  let empty := empty &&& ((empty <<< 1) &&& u64Mask)
  let rook := rook ||| (empty &&& ((rook <<< 2) &&& u64Mask))
  let empty := empty &&& ((empty <<< 2) &&& u64Mask)
  rook ||| (empty &&& ((rook <<< 4) &&& u64Mask))

def fill_west (rook e : Nat) : Nat :=
  let empty := e &&& NOT_H_FILE
  let rook := rook ||| (empty &&& (rook >>> 1))
  let empty := empty &&& (empty >>> 1)
  let rook := rook ||| (empty &&& (rook >>> 2))
  let empty := empty &&& (empty >>> 2)
  rook ||| (empty &&& (rook >>> 4))

def fill_north_east (bishop e : Nat) : Nat :=
  let empty := e &&& NOT_A_FILE
  let bishop := bishop ||| (empty &&& ((bishop <<< 9) &&& u64Mask))
  let empty := empty &&& ((empty <<< 9) &&& u64Mask)
  let bishop := bishop ||| (empty &&& ((bishop <<< 18) &&& u64Mask))
  let empty := empty &&& ((empty <<< 18) &&& u64Mask)
  bishop ||| (empty &&& ((bishop <<< 36) &&& u64Mask))

def fill_south_east (bishop e : Nat) : Nat :=
  let empty := e &&& NOT_A_FILE
  let bishop := bishop ||| (empty &&& (bishop >>> 7))
  let empty := empty &&& (empty >>> 7)
  let bishop := bishop ||| (empty &&& (bishop >>> 14))
  let empty := empty &&& (empty >>> 14)
  bishop ||| (empty &&& (bishop >>> 28))

def fill_north_west (bishop e : Nat) : Nat :=
  let empty := e &&& NOT_H_FILE
  let bishop := bishop ||| (empty &&& ((bishop <<< 7) &&& u64Mask))
  let empty := empty &&& ((empty <<< 7) &&& u64Mask)
  let bishop := bishop ||| (empty &&& ((bishop <<< 14) &&& u64Mask))
  let empty := empty &&& ((empty <<< 14) &&& u64Mask)
  bishop ||| (empty &&& ((bishop <<< 28) &&& u64Mask))

def fill_south_west (bishop e : Nat) : Nat :=
  let empty := e &&& NOT_H_FILE
  let bishop := bishop ||| (empty &&& (bishop >>> 9))
  let empty := empty &&& (empty >>> 9)
  let bishop := bishop ||| (empty &&& (bishop >>> 18))
  let empty := empty &&& (empty >>> 18)
  bishop ||| (empty &&& (bishop >>> 36))

def attack_north (rook empty : Nat) : Nat := north_one (fill_north rook empty)
def attack_south (rook empty : Nat) : Nat := south_one (fill_south rook empty)
def attack_east (rook empty : Nat) : Nat := east_one (fill_east rook empty)
def attack_west (rook empty : Nat) : Nat := west_one (fill_west rook empty)
def attack_north_east (bishop empty : Nat) : Nat := north_east_one (fill_north_east bishop empty)
def attack_north_west (bishop empty : Nat) : Nat := north_west_one (fill_north_west bishop empty)
def attack_south_east (bishop empty : Nat) : Nat := south_east_one (fill_south_east bishop empty)
def attack_south_west (bishop empty : Nat) : Nat := south_west_one (fill_south_west bishop empty)

/-- `is_empty`: all ones when the word is zero, zero otherwise (release-build
semantics of the signed shift trick of the source). -/
def is_empty (b : Nat) : Nat := if b = 0 then u64Mask else 0

def king_attacks (king : Nat) : Nat :=
  let attacks := east_one king ||| west_one king
  let row := attacks ||| king
  attacks ||| north_one row ||| south_one row

def knight_attacks (knight : Nat) : Nat :=
  north_north_east knight ||| north_east_east knight ||| south_east_east knight |||
    south_south_east knight ||| north_north_west knight ||| north_west_west knight |||
    south_west_west knight ||| south_south_west knight

def knight_attacks2 (knights : Nat) : Nat :=
  let l1 := (knights >>> 1) &&& NOT_H_FILE
  let l2 := (knights >>> 2) &&& NOT_GH_FILE
  let r1 := ((knights <<< 1) &&& u64Mask) &&& NOT_A_FILE
  let r2 := ((knights <<< 2) &&& u64Mask) &&& NOT_AB_FILE
  let h1 := l1 ||| r1
  let h2 := l2 ||| r2
  (((h1 <<< 16) &&& u64Mask) ||| (h1 >>> 16) ||| ((h2 <<< 8) &&& u64Mask) ||| (h2 >>> 8))

/-- The direction indices of the `Direction` enum of the source. -/
def dirNorth : Nat := 0
def dirSouth : Nat := 1
def dirEast : Nat := 2
def dirWest : Nat := 3
def dirNorthEast : Nat := 4
def dirNorthWest : Nat := 5
def dirSouthEast : Nat := 6
def dirSouthWest : Nat := 7

/-- The `RAY_ATTACKS` table of the source: for each of the eight sliding
directions and each square index below 64 the ray fill from that square with
the fixed emptiness mask `!1`, the square itself removed; slot 64 (and
beyond) is the zero sentinel of the 65-entry array. -/
def RAY_ATTACKS (direction i : Nat) : Nat :=
  if i < 64 then
    let b := 1 <<< i
    let fillv :=
      if direction = dirNorth then fill_north b (bnot 1)
      else if direction = dirSouth then fill_south b (bnot 1)
      else if direction = dirEast then fill_east b (bnot 1)
      else if direction = dirWest then fill_west b (bnot 1)
      else if direction = dirNorthEast then fill_north_east b (bnot 1)
      else if direction = dirNorthWest then fill_north_west b (bnot 1)
      else if direction = dirSouthEast then fill_south_east b (bnot 1)
      else fill_south_west b (bnot 1)
    fillv &&& bnot b
  else 0

def get_ray_attacks (index occupied direction : Nat) : Nat :=
  let attacks := RAY_ATTACKS direction index
  let blockers := attacks &&& occupied
  let lowest_bit := trailingZeros blockers
  attacks ^^^ RAY_ATTACKS direction lowest_bit

/-- `get_negative_ray_attacks`; the wrapping subtraction `63 - leading_zeros`
of the source yields the sentinel 64 exactly when there is no blocker. -/
def get_negative_ray_attacks (index occupied direction : Nat) : Nat :=
  let attacks := RAY_ATTACKS direction index
  let blockers := attacks &&& occupied
  let lz := leadingZeros blockers
  let highest_bit := if lz < 64 then 63 - lz else 64
  attacks ^^^ RAY_ATTACKS direction highest_bit

-- 16-bit move encoding (BitBoardMove), kept as a natural number below 2^16.
def bnot16 (x : Nat) : Nat := x ^^^ 0xFFFF
def bbmNew (fromSq toSq flags : Nat) : Nat :=
  (toSq &&& 0x3f) ||| ((fromSq &&& 0x3f) <<< 6) ||| ((flags &&& 0xf) <<< 12)
def bbmTo (m : Nat) : Nat := m &&& 0x003f
def bbmFrom (m : Nat) : Nat := (m >>> 6) &&& 0x003f
def bbmFlags (m : Nat) : Nat := (m >>> 12) &&& 0x000f
def bbmSetTo (m toSq : Nat) : Nat := (m &&& bnot16 0x3f) ||| (toSq &&& 0x3f)
def bbmSetFrom (m fromSq : Nat) : Nat := (m &&& bnot16 (0x3f <<< 6)) ||| ((fromSq &&& 0x3f) <<< 6)

/-- The `PartialEq` instance of `BitBoardMove`: the source compares only the
low twelve bits of the two words. -/
def bbmEq (m1 m2 : Nat) : Bool := (m1 &&& 0x0fff) == (m2 &&& 0x0fff)

namespace BitBoardState

/-- The en-passant computation of `mirror_board`: shift the square up or
down three ranks through the RANK3 and RANK6 masks (64 stays 64 because the
wrapped shift puts bit 0 outside both masks). -/
def mirrorEp (e : Nat) : Nat :=
  let ep := 1 <<< (e % 64)
  trailingZeros (((ep &&& RANK3) <<< 24) ||| ((ep &&& RANK6) >>> 24))

/-- The castling computation of `mirror_board`: swap the two three-bit
groups. -/
def mirrorCastling (c : Nat) : Nat :=
  let lower := c &&& 0b111
  let upper := (c &&& 0b111000) >>> 3
  (lower <<< 3) ||| upper

/-- `mirror_board`: flip the board vertically, mirror the en-passant square
between the third and sixth ranks, and swap the two castling-rights
nibbles. -/
def mirror_board (s : BitBoardState) : BitBoardState :=
  { s with
    bitboard := s.bitboard.flip_board
    en_passant := mirrorEp s.en_passant
    castling := mirrorCastling s.castling }

/-- `change_side`: flip the color to move, always increment the `u8` halfmove
counter, and increment the `u16` fullmove counter after a Black move. -/
def change_side (s : BitBoardState) : BitBoardState :=
  match s.active_color with
  | Color.White =>
    { s with active_color := Color.Black, half_moves := (s.half_moves + 1) % 256 }
  | Color.Black =>
    { s with active_color := Color.White, full_moves := (s.full_moves + 1) % 65536,
             half_moves := (s.half_moves + 1) % 256 }

/-- `apply_move`: plays a move on the piece bitboards, updating the castling
byte and the en-passant square exactly as the source does (including its
White-only castling bookkeeping). -/
def apply_move (s : BitBoardState) (m : Nat) : BitBoardState :=
  let from_type := s.bitboard.get_piece (bbmFrom m)
  let to_type := s.bitboard.get_piece (bbmTo m)
  let castling := s.castling
  let castling :=
    if to_type = some (Color.Black, Piece.Rook) then
      let c := if (1 <<< bbmFrom m) &&& A_FILE ≠ 0 then castling &&& bnot8 BLACK_A_ROOK
               else castling
      if (1 <<< bbmFrom m) &&& H_FILE ≠ 0 then c &&& bnot8 BLACK_H_ROOK else c
    else castling
  let bb := match to_type with
    | some (c, p) => s.bitboard.clear_piece (bbmTo m) c p
    | none => s.bitboard
  match from_type with
  | none => { s with bitboard := bb, castling := castling, en_passant := 64 }
  | some (color, piece) =>
    let castling :=
      match piece with
      | Piece.King => castling &&& bnot8 WHITE_KING
      | Piece.Rook =>
        let c := if (1 <<< bbmFrom m) &&& A_FILE ≠ 0 then castling &&& bnot8 WHITE_A_ROOK
                 else castling
        if (1 <<< bbmFrom m) &&& H_FILE ≠ 0 then c &&& bnot8 WHITE_H_ROOK else c
      | _ => castling
    let fl := bbmFlags m &&& bnot16 CAPTURE
    let p := if fl = QUEEN_PROMOTION then Piece.Queen
             else if fl = KNIGHT_PROMOTION then Piece.Knight
             else if fl = ROOK_PROMOTION then Piece.Rook
             else if fl = BISHOP_PROMOTION then Piece.Bishop
             else piece
    let ep := if fl = DOUBLE_PAWN_PUSH then bbmFrom m + 8 else 64
    let bb := if fl = EP_CAPTURE then bb.clear_piece (bbmTo m - 8) Color.Black Piece.Pawn
              else if fl = QUEEN_CASTLE then
                (bb.clear_piece 0 Color.White Piece.Rook).set_piece 3 Color.White Piece.Rook
              else if fl = KING_CASTLE then
                (bb.clear_piece 7 Color.White Piece.Rook).set_piece 5 Color.White Piece.Rook
              else bb
    let bb := bb.set_piece (bbmTo m) color p
    let bb := bb.clear_piece (bbmFrom m) color piece
    { s with bitboard := bb, castling := castling, en_passant := ep }

end BitBoardState

/-- The sixteen per-direction target boards computed by `move_targets`. -/
structure MoveTargets where
  n : Nat
  s : Nat
  e : Nat
  w : Nat
  ne : Nat
  nw : Nat
  se : Nat
  sw : Nat
  nne : Nat
  nnw : Nat
  sse : Nat
  ssw : Nat
  nww : Nat
  nee : Nat
  sww : Nat
  see : Nat

/-- The pin-aware, check-aware target computation of the source, written from
the White perspective. -/
def move_targets (state : BitBoardState) (color : Color) : MoveTargets :=
  let opposite_color := match color with | Color.White => Color.Black | Color.Black => Color.White
  let empty := state.bitboard.empty_squares
  let occupied := bnot empty
  let our_king := state.bitboard.get_set color Piece.King
  let our_king_index := trailingZeros our_king
  let empty_and_our_king := bnot (occupied ^^^ our_king)
  let empty_and_our_king_and_ep :=
    bnot (occupied ^^^ our_king ^^^
      (((1 <<< (state.en_passant % 64)) &&& (RANK6 ||| RANK3)) >>> 8))
  let our_pieces := state.bitboard.color_pieces color
  let their_pieces := state.bitboard.color_pieces opposite_color
  let orthogonal_set := state.bitboard.get_set opposite_color Piece.Rook |||
    state.bitboard.get_set opposite_color Piece.Queen
  let diagonal_set := state.bitboard.get_set opposite_color Piece.Bishop |||
    state.bitboard.get_set opposite_color Piece.Queen
  -- enemy rooks and queens west
  let attacks := attack_west orthogonal_set empty_and_our_king
  let ep_attacks := attack_west orthogonal_set empty_and_our_king_and_ep
  let any_attacks := attacks
  let super_attacks := get_ray_attacks our_king_index occupied dirEast
  let w_ksuper_attacks_orth := super_attacks
  let hor_inbetween := attacks &&& super_attacks
  let hor_inbetween_ep := ep_attacks &&& super_attacks
  -- enemy rooks and queens east
  let attacks := attack_east orthogonal_set empty_and_our_king
  let ep_attacks := attack_east orthogonal_set empty_and_our_king_and_ep
  let any_attacks := any_attacks ||| attacks
  let super_attacks := get_negative_ray_attacks our_king_index occupied dirWest
  let w_ksuper_attacks_orth := w_ksuper_attacks_orth ||| super_attacks
  let hor_inbetween := hor_inbetween ||| (attacks &&& super_attacks)
  let hor_inbetween_ep := hor_inbetween_ep ||| (ep_attacks &&& super_attacks)
  -- enemy rooks and queens north
  let attacks := attack_north orthogonal_set empty_and_our_king
  let any_attacks := any_attacks ||| attacks
  let super_attacks := get_negative_ray_attacks our_king_index occupied dirSouth
  let w_ksuper_attacks_orth := w_ksuper_attacks_orth ||| super_attacks
  let ver_inbetween := attacks &&& super_attacks
  -- enemy rooks and queens south
  let attacks := attack_south orthogonal_set empty_and_our_king
  let any_attacks := any_attacks ||| attacks
  let super_attacks := get_ray_attacks our_king_index occupied dirNorth
  let w_ksuper_attacks_orth := w_ksuper_attacks_orth ||| super_attacks
  let ver_inbetween := ver_inbetween ||| (attacks &&& super_attacks)
  -- enemy bishops and queens north east
  let attacks := attack_north_east diagonal_set empty_and_our_king
  let ep_attacks := attack_north_east diagonal_set empty_and_our_king_and_ep
  let any_attacks := any_attacks ||| attacks
  let super_attacks := get_negative_ray_attacks our_king_index occupied dirSouthWest
  let w_ksuper_attacks_dia := super_attacks
  let dia_inbetween := attacks &&& super_attacks
  let dia_inbetween_ep := ep_attacks
  -- enemy bishops and queens south west
  let attacks := attack_south_west diagonal_set empty_and_our_king
  let ep_attacks := attack_south_west diagonal_set empty_and_our_king_and_ep
  let any_attacks := any_attacks ||| attacks
  let super_attacks := get_ray_attacks our_king_index occupied dirNorthEast
  let w_ksuper_attacks_dia := w_ksuper_attacks_dia ||| super_attacks
  let dia_inbetween := dia_inbetween ||| (attacks &&& super_attacks)
  let dia_inbetween_ep := dia_inbetween_ep ||| ep_attacks
  -- enemy bishops and queens north west
  let attacks := attack_north_west diagonal_set empty_and_our_king
  let ep_attacks := attack_north_west diagonal_set empty_and_our_king_and_ep
  let any_attacks := any_attacks ||| attacks
  let super_attacks := get_negative_ray_attacks our_king_index occupied dirSouthEast
  let w_ksuper_attacks_dia := w_ksuper_attacks_dia ||| super_attacks
  let ant_inbetween := attacks &&& super_attacks
  let ant_inbetween_ep := ep_attacks
  -- enemy bishops and queens south east
  let attacks := attack_south_east diagonal_set empty_and_our_king
  let ep_attacks := attack_south_east diagonal_set empty_and_our_king_and_ep
  let any_attacks := any_attacks ||| attacks
  let super_attacks := get_ray_attacks our_king_index occupied dirNorthWest
  let w_ksuper_attacks_dia := w_ksuper_attacks_dia ||| super_attacks
  let ant_inbetween := ant_inbetween ||| (attacks &&& super_attacks)
  let ant_inbetween_ep := ant_inbetween_ep ||| ep_attacks
  -- enemy knights, pawns and king
  let any_attacks := any_attacks |||
    knight_attacks (state.bitboard.get_set opposite_color Piece.Knight)
  let any_attacks := any_attacks |||
    south_east_one (state.bitboard.get_set opposite_color Piece.Pawn)
  let any_attacks := any_attacks |||
    south_west_one (state.bitboard.get_set opposite_color Piece.Pawn)
  let any_attacks := any_attacks |||
    king_attacks (state.bitboard.get_set opposite_color Piece.King)
  -- check for check
  let all_inbetween := hor_inbetween ||| ver_inbetween ||| dia_inbetween ||| ant_inbetween
  let all_inbetween_ep := hor_inbetween_ep ||| dia_inbetween_ep ||| ant_inbetween_ep
  let blocks := all_inbetween &&& bnot occupied
  let check_from := (w_ksuper_attacks_orth &&& orthogonal_set) |||
    (w_ksuper_attacks_dia &&& diagonal_set) |||
    (knight_attacks our_king &&& state.bitboard.get_set opposite_color Piece.Knight) |||
    ((north_east_one our_king ||| north_west_one our_king) &&&
      state.bitboard.get_set opposite_color Piece.Pawn)
  let null_if_check := is_empty (any_attacks &&& our_king)
  let null_if_dbl_check := is_empty (check_from &&& ((check_from + u64Mask) % 2 ^ 64))
  let check_to := check_from ||| blocks ||| null_if_check
  let target_mask := bnot our_pieces &&& check_to &&& null_if_dbl_check
  -- valid moves
  let orthogonal_set := state.bitboard.get_set color Piece.Rook |||
    state.bitboard.get_set color Piece.Queen
  let diagonal_set := state.bitboard.get_set color Piece.Bishop |||
    state.bitboard.get_set color Piece.Queen
  -- horizontal rook and queen moves
  let sliders := orthogonal_set &&& bnot (all_inbetween ^^^ hor_inbetween)
  let mtE := attack_east sliders empty &&& target_mask
  let mtW := attack_west sliders empty &&& target_mask
  -- vertical rook and queen moves
  let sliders := orthogonal_set &&& bnot (all_inbetween ^^^ ver_inbetween)
  let mtN := attack_north sliders empty &&& target_mask
  let mtS := attack_south sliders empty &&& target_mask
  -- diagonal bishop and queen moves
  let sliders := diagonal_set &&& bnot (all_inbetween ^^^ dia_inbetween)
  let mtNE := attack_north_east sliders empty &&& target_mask
  let mtSW := attack_south_west sliders empty &&& target_mask
  -- antidiagonal bishop and queen moves
  let sliders := diagonal_set &&& bnot (all_inbetween ^^^ ant_inbetween)
  let mtNW := attack_north_west sliders empty &&& target_mask
  let mtSE := attack_south_east sliders empty &&& target_mask
  -- knight moves
  let knights := state.bitboard.get_set color Piece.Knight &&& bnot all_inbetween
  let mtNNE := north_north_east knights &&& target_mask
  let mtNEE := north_east_east knights &&& target_mask
  let mtSEE := south_east_east knights &&& target_mask
  let mtSSE := south_south_east knights &&& target_mask
  let mtNNW := north_north_west knights &&& target_mask
  let mtNWW := north_west_west knights &&& target_mask
  let mtSWW := south_west_west knights &&& target_mask
  let mtSSW := south_south_west knights &&& target_mask
  -- pawn captures and en passant
  let targets := their_pieces &&& target_mask
  let pawns := state.bitboard.get_set color Piece.Pawn &&& bnot (all_inbetween ^^^ dia_inbetween)
  let mtNE := mtNE ||| (north_east_one pawns &&& targets)
  let pawns := state.bitboard.get_set color Piece.Pawn &&& bnot (all_inbetween ^^^ ant_inbetween)
  let mtNW := mtNW ||| (north_west_one pawns &&& targets)
  let ep_target := 1 <<< (state.en_passant % 64)
  let pawns := state.bitboard.get_set color Piece.Pawn &&&
    bnot (all_inbetween ^^^ dia_inbetween) &&& bnot all_inbetween_ep
  let mtNE := mtNE ||| (north_east_one pawns &&& ep_target)
  let pawns := state.bitboard.get_set color Piece.Pawn &&&
    bnot (all_inbetween ^^^ ant_inbetween) &&& bnot all_inbetween_ep
  let mtNW := mtNW ||| (north_west_one pawns &&& ep_target)
  -- pawn pushes, single and double
  let pawns := state.bitboard.get_set color Piece.Pawn &&& bnot (all_inbetween ^^^ ver_inbetween)
  let pawn_pushes := north_one pawns &&& bnot occupied
  let mtN := mtN ||| (pawn_pushes &&& target_mask)
  let mtN := mtN ||| (north_one pawn_pushes &&& bnot occupied &&& target_mask &&& RANK4)
  -- king moves
  let target_mask := bnot (our_pieces ||| any_attacks)
  let mtW := mtW ||| (west_one our_king &&& target_mask)
  let mtE := mtE ||| (east_one our_king &&& target_mask)
  let mtN := mtN ||| (north_one our_king &&& target_mask)
  let mtS := mtS ||| (south_one our_king &&& target_mask)
  let mtNE := mtNE ||| (north_east_one our_king &&& target_mask)
  let mtSW := mtSW ||| (south_west_one our_king &&& target_mask)
  let mtNW := mtNW ||| (north_west_one our_king &&& target_mask)
  let mtSE := mtSE ||| (south_east_one our_king &&& target_mask)
  -- left castle
  let target_mask := bnot (occupied ||| any_attacks)
  let castling_rights := bnot (is_empty (state.castling &&& WHITE_KING))
  let check_clear := bnot (is_empty (west_one our_king &&& target_mask))
  let nothing_1 := bnot (is_empty (west_one (west_one our_king) &&& target_mask))
  let nothing_2 := bnot (is_empty (west_one (west_one (west_one our_king)) &&& target_mask))
  let mtW := mtW ||| ((west_one (west_one our_king) &&& target_mask) &&& castling_rights &&&
    check_clear &&& nothing_1 &&& nothing_2)
  -- right castle
  let castling_rights := bnot (is_empty (state.castling &&& CASTLE_WHITE_KING))
  let check_clear := bnot (is_empty (east_one our_king &&& target_mask))
  let nothing := bnot (is_empty (east_one (east_one our_king) &&& target_mask))
  let mtE := mtE ||| ((east_one (east_one our_king) &&& target_mask) &&& castling_rights &&&
    check_clear &&& nothing)
  { n := mtN, s := mtS, e := mtE, w := mtW, ne := mtNE, nw := mtNW, se := mtSE, sw := mtSW,
    nne := mtNNE, nnw := mtNNW, sse := mtSSE, ssw := mtSSW,
    nww := mtNWW, nee := mtNEE, sww := mtSWW, see := mtSEE }

/-!
The move-extraction loops of `generate_moves`.  Each source `while` loop is a
recursive function structurally decreasing on a fuel argument; each outer
iteration clears at least one bit of a 64-bit board, and each inner scan
makes at most 64 steps, so fuel 64 is never exhausted on any input the source
itself terminates on.  The `u32` decrements of the source are modelled with
truncated natural subtraction; the two coincide on every reachable iteration
because the scan stops at the source square.
-/

/-- Inner scan of the North loop (within-file sweep below the found target). -/
def northScan : Nat → Nat → Nat → Nat → Nat → Nat → Nat × List Nat
  | 0, nt, _, _, _, _ => (nt, [])
  | fuel + 1, nt, t, s, occupied, pawn =>
    if t ≤ s then (nt, []) else
      let bit := (nt &&& (1 <<< t)) >>> t
      let nt := nt &&& bnot (1 <<< t)
      let here : List Nat :=
        if bit ≠ 0 then
          let capture := if (1 <<< t) &&& occupied = 0 then 0 else CAPTURE
          let double_pawn_push :=
            if ((pawn <<< 16) &&& u64Mask) &&& (1 <<< t) = 0 then 0 else DOUBLE_PAWN_PUSH
          [bbmNew s t (capture ||| double_pawn_push)]
        else []
      let rest := northScan fuel nt (t - 8) s occupied pawn
      (rest.1, here ++ rest.2)

/-- The North loop: rook, queen and king steps plus pawn pushes northward. -/
def northLoop : Nat → Nat → Nat → Nat → List Nat
  | 0, _, _, _ => []
  | fuel + 1, nt, occupied, pawns =>
    if nt = 0 then [] else
      let t := 63 - leadingZeros nt
      let s := 63 - leadingZeros (RAY_ATTACKS dirSouth t &&& occupied &&& bnot (1 <<< t))
      let capture := if (1 <<< t) &&& occupied = 0 then 0 else CAPTURE
      let pawn := (1 <<< s) &&& pawns
      let double_pawn_push :=
        if ((pawn <<< 16) &&& u64Mask) &&& (1 <<< t) = 0 then 0 else DOUBLE_PAWN_PUSH
      let promotion := if ((pawn <<< 8) &&& u64Mask) &&& RANK8 = 0 then 0 else 1
      let flags := capture ||| double_pawn_push
      let first :=
        if promotion = 0 then [bbmNew s t flags]
        else [bbmNew s t (flags ||| QUEEN_PROMOTION), bbmNew s t (flags ||| ROOK_PROMOTION),
              bbmNew s t (flags ||| BISHOP_PROMOTION), bbmNew s t (flags ||| KNIGHT_PROMOTION)]
      let nt := nt &&& bnot (1 <<< t)
      let scanned := northScan 64 nt (t - 8) s occupied pawn
      first ++ scanned.2 ++ northLoop fuel scanned.1 occupied pawns

/-- Inner scan of the South loop. -/
def southScan : Nat → Nat → Nat → Nat → Nat → Nat × List Nat
  | 0, nt, _, _, _ => (nt, [])
  | fuel + 1, nt, t, s, occupied =>
    if s ≤ t then (nt, []) else
      let bit := (nt &&& (1 <<< t)) >>> t
      let nt := nt &&& bnot (1 <<< t)
      let here : List Nat :=
        if bit ≠ 0 then
          let capture := if (1 <<< t) &&& occupied = 0 then 0 else CAPTURE
          [bbmNew s t capture]
        else []
      let rest := southScan fuel nt (t + 8) s occupied
      (rest.1, here ++ rest.2)

/-- The South loop. -/
def southLoop : Nat → Nat → Nat → Nat → List Nat
  | 0, _, _, _ => []
  | fuel + 1, nt, occupied, pawns =>
    if nt = 0 then [] else
      let t := trailingZeros nt
      let s := trailingZeros (RAY_ATTACKS dirNorth t &&& occupied &&& bnot (1 <<< t))
      let capture := if (1 <<< t) &&& occupied = 0 then 0 else CAPTURE
      let pawn := (1 <<< s) &&& pawns
      let double_pawn_push := if (pawn >>> 16) &&& (1 <<< t) = 0 then 0 else DOUBLE_PAWN_PUSH
      let promotion := if (pawn >>> 8) &&& RANK1 = 0 then 0 else 1
      let flags := capture ||| double_pawn_push
      let first :=
        if promotion = 0 then [bbmNew s t flags]
        else [bbmNew s t (flags ||| QUEEN_PROMOTION), bbmNew s t (flags ||| ROOK_PROMOTION),
              bbmNew s t (flags ||| BISHOP_PROMOTION), bbmNew s t (flags ||| KNIGHT_PROMOTION)]
      let nt := nt &&& bnot (1 <<< t)
      let scanned := southScan 64 nt (t + 8) s occupied
      first ++ scanned.2 ++ southLoop fuel scanned.1 occupied pawns

/-- Inner scan of the East loop (no castle flag on the inner pushes). -/
def eastScan : Nat → Nat → Nat → Nat → Nat → Nat × List Nat
  | 0, nt, _, _, _ => (nt, [])
  | fuel + 1, nt, t, s, occupied =>
    if t ≤ s then (nt, []) else
      let bit := (nt &&& (1 <<< t)) >>> t
      let nt := nt &&& bnot (1 <<< t)
      let here : List Nat :=
        if bit ≠ 0 then
          let capture := if (1 <<< t) &&& occupied = 0 then 0 else CAPTURE
          [bbmNew s t capture]
        else []
      let rest := eastScan fuel nt (t - 1) s occupied
      (rest.1, here ++ rest.2)

/-- The East loop; a king source square tags the move with the queen-castle
flag, mirroring the source quirk. -/
def eastLoop : Nat → Nat → Nat → BitBoard → List Nat
  | 0, _, _, _ => []
  | fuel + 1, nt, occupied, bb =>
    if nt = 0 then [] else
      let t := 63 - leadingZeros nt
      let s := 63 - leadingZeros (RAY_ATTACKS dirWest t &&& occupied &&& bnot (1 <<< t))
      let capture := if (1 <<< t) &&& occupied = 0 then 0 else CAPTURE
      let flags := match bb.get_piece s with
        | some (_, Piece.King) => capture ||| QUEEN_CASTLE
        | _ => capture
      let nt := nt &&& bnot (1 <<< t)
      let scanned := eastScan 64 nt (t - 1) s occupied
      bbmNew s t flags :: (scanned.2 ++ eastLoop fuel scanned.1 occupied bb)

/-- Inner scan of the West loop; a king source square tags the move with the
king-castle flag. -/
def westScan : Nat → Nat → Nat → Nat → Nat → BitBoard → Nat × List Nat
  | 0, nt, _, _, _, _ => (nt, [])
  | fuel + 1, nt, t, s, occupied, bb =>
    if s ≤ t then (nt, []) else
      let bit := (nt &&& (1 <<< t)) >>> t
      let nt := nt &&& bnot (1 <<< t)
      let here : List Nat :=
        if bit ≠ 0 then
          let capture := if (1 <<< t) &&& occupied = 0 then 0 else CAPTURE
          let flags := match bb.get_piece s with
            | some (_, Piece.King) => capture ||| KING_CASTLE
            | _ => capture
          [bbmNew s t flags]
        else []
      let rest := westScan fuel nt (t + 1) s occupied bb
      (rest.1, here ++ rest.2)

/-- The West loop. -/
def westLoop : Nat → Nat → Nat → BitBoard → List Nat
  | 0, _, _, _ => []
  | fuel + 1, nt, occupied, bb =>
    if nt = 0 then [] else
      let t := trailingZeros nt
      let s := trailingZeros (RAY_ATTACKS dirEast t &&& occupied &&& bnot (1 <<< t))
      let capture := if (1 <<< t) &&& occupied = 0 then 0 else CAPTURE
      let nt := nt &&& bnot (1 <<< t)
      let scanned := westScan 64 nt (t + 1) s occupied bb
      bbmNew s t capture :: (scanned.2 ++ westLoop fuel scanned.1 occupied bb)

/-- Inner scan of a top-down diagonal loop with the given step. -/
def diagDownScan (step : Nat) : Nat → Nat → Nat → Nat → Nat → Nat × List Nat
  | 0, nt, _, _, _ => (nt, [])
  | fuel + 1, nt, t, s, occupied =>
    if t ≤ s then (nt, []) else
      let bit := (nt &&& (1 <<< t)) >>> t
      let nt := nt &&& bnot (1 <<< t)
      let here : List Nat :=
        if bit ≠ 0 then
          let capture := if (1 <<< t) &&& occupied = 0 then 0 else CAPTURE
          [bbmNew s t capture]
        else []
      let rest := diagDownScan step fuel nt (t - step) s occupied
      (rest.1, here ++ rest.2)

/-- A top-down diagonal loop (NorthEast with step 9, NorthWest with step 7);
`ray` is the direction scanned for the source square. -/
def diagDownLoop (ray step : Nat) : Nat → Nat → Nat → Nat → List Nat
  | 0, _, _, _ => []
  | fuel + 1, nt, occupied, pawns =>
    if nt = 0 then [] else
      let t := 63 - leadingZeros nt
      let s := 63 - leadingZeros (RAY_ATTACKS ray t &&& occupied &&& bnot (1 <<< t))
      let capture := if (1 <<< t) &&& occupied = 0 then 0 else CAPTURE
      let pawn := (1 <<< s) &&& pawns
      let promotion := if ((pawn <<< 8) &&& u64Mask) &&& RANK8 = 0 then 0 else 1
      let first :=
        if promotion = 0 then [bbmNew s t capture]
        else [bbmNew s t (capture ||| QUEEN_PROMOTION), bbmNew s t (capture ||| ROOK_PROMOTION),
              bbmNew s t (capture ||| BISHOP_PROMOTION), bbmNew s t (capture ||| KNIGHT_PROMOTION)]
      let nt := nt &&& bnot (1 <<< t)
      let scanned := diagDownScan step 64 nt (t - step) s occupied
      first ++ scanned.2 ++ diagDownLoop ray step fuel scanned.1 occupied pawns

/-- Inner scan of a bottom-up diagonal loop with the given step. -/
def diagUpScan (step : Nat) : Nat → Nat → Nat → Nat → Nat → Nat × List Nat
  | 0, nt, _, _, _ => (nt, [])
  | fuel + 1, nt, t, s, occupied =>
    if s ≤ t then (nt, []) else
      let bit := (nt &&& (1 <<< t)) >>> t
      let nt := nt &&& bnot (1 <<< t)
      let here : List Nat :=
        if bit ≠ 0 then
          let capture := if (1 <<< t) &&& occupied = 0 then 0 else CAPTURE
          [bbmNew s t capture]
        else []
      let rest := diagUpScan step fuel nt (t + step) s occupied
      (rest.1, here ++ rest.2)

/-- A bottom-up diagonal loop (SouthWest with step 9, SouthEast with step 7). -/
def diagUpLoop (ray step : Nat) : Nat → Nat → Nat → Nat → List Nat
  | 0, _, _, _ => []
  | fuel + 1, nt, occupied, pawns =>
    if nt = 0 then [] else
      let t := trailingZeros nt
      let s := trailingZeros (RAY_ATTACKS ray t &&& occupied &&& bnot (1 <<< t))
      let capture := if (1 <<< t) &&& occupied = 0 then 0 else CAPTURE
      let pawn := (1 <<< s) &&& pawns
      let promotion := if (pawn >>> 8) &&& RANK1 = 0 then 0 else 1
      let first :=
        if promotion = 0 then [bbmNew s t capture]
        else [bbmNew s t (capture ||| QUEEN_PROMOTION), bbmNew s t (capture ||| ROOK_PROMOTION),
              bbmNew s t (capture ||| BISHOP_PROMOTION), bbmNew s t (capture ||| KNIGHT_PROMOTION)]
      let nt := nt &&& bnot (1 <<< t)
      let scanned := diagUpScan step 64 nt (t + step) s occupied
      first ++ scanned.2 ++ diagUpLoop ray step fuel scanned.1 occupied pawns

/-- A knight loop: the source square is recovered by the opposite knight
step of the target bit. -/
def knightLoop (stepBack : Nat → Nat) : Nat → Nat → Nat → List Nat
  | 0, _, _ => []
  | fuel + 1, nt, occupied =>
    if nt = 0 then [] else
      let t := trailingZeros nt
      let s := trailingZeros (stepBack (1 <<< t))
      let capture := if (1 <<< t) &&& occupied = 0 then 0 else CAPTURE
      bbmNew s t capture :: knightLoop stepBack fuel (nt &&& bnot (1 <<< t)) occupied

/-- `generate_moves`: for Black the position is mirrored and the side token
flipped, generation always runs from the White perspective, and the produced
moves are mirrored back at the end via the byte-swap of the single-bit
boards. -/
def generate_moves (state : BitBoardState) : List Nat :=
  let color := state.active_color
  let st := match color with
    | Color.White => state
    | Color.Black => (state.mirror_board).change_side
  let mt := move_targets st Color.White
  let occupied := st.bitboard.occupied_squares
  let pawns := st.bitboard.get_set Color.White Piece.Pawn
  let moves :=
    northLoop 64 mt.n occupied pawns ++
    southLoop 64 mt.s occupied pawns ++
    eastLoop 64 mt.e occupied st.bitboard ++
    westLoop 64 mt.w occupied st.bitboard ++
    diagDownLoop dirSouthWest 9 64 mt.ne occupied pawns ++
    diagDownLoop dirSouthEast 7 64 mt.nw occupied pawns ++
    diagUpLoop dirNorthEast 9 64 mt.sw occupied pawns ++
    diagUpLoop dirNorthWest 7 64 mt.se occupied pawns ++
    knightLoop south_south_west 64 mt.nne occupied ++
    knightLoop south_west_west 64 mt.nee occupied ++
    knightLoop north_west_west 64 mt.see occupied ++
    knightLoop north_north_west 64 mt.sse occupied ++
    knightLoop south_south_east 64 mt.nnw occupied ++
    knightLoop south_east_east 64 mt.nww occupied ++
    knightLoop north_east_east 64 mt.sww occupied ++
    knightLoop north_north_east 64 mt.ssw occupied
  match color with
  | Color.White => moves
  | Color.Black => moves.map (fun m =>
      let m := bbmSetTo m (trailingZeros (swapBytes (1 <<< bbmTo m)))
      bbmSetFrom m (trailingZeros (swapBytes (1 <<< bbmFrom m))))

/-- `perft`: leaf count of the legal game tree, sequential semantics of the
parallel fold of the source. -/
def perft (board : BitBoardState) : Nat → Nat
  | 0 => 1
  | 1 => (generate_moves board).length
  | d + 2 =>
    (generate_moves board).foldl
      (fun acc m => acc + perft ((board.apply_move m).change_side) (d + 1)) 0

/-- The all-zero bitboard, `BitBoard::new`. -/
def BitBoard.new : BitBoard :=
  { wK := 0, wQ := 0, wR := 0, wB := 0, wN := 0, wP := 0,
    bK := 0, bQ := 0, bR := 0, bB := 0, bN := 0, bP := 0 }

/-- Rust `char::is_ascii_whitespace`. -/
def asciiWhitespace (c : Char) : Bool :=
  c == ' ' || c == '\t' || c == '\n' || c == '\x0c' || c == '\r'

/-- Helper of `asciiFields`: split a character list at whitespace runs,
carrying the reversed current field. -/
def splitFieldsAux : List Char → List Char → List (List Char)
  | [], acc => if acc.isEmpty then [] else [acc.reverse]
  | c :: cs, acc =>
    if asciiWhitespace c then
      if acc.isEmpty then splitFieldsAux cs []
      else acc.reverse :: splitFieldsAux cs []
    else splitFieldsAux cs (c :: acc)

/-- `split_ascii_whitespace`: the whitespace-separated fields of a string,
as character lists. -/
def asciiFields (s : String) : List (List Char) :=
  splitFieldsAux s.data []

/-- The piece-placement loop of `from_fen`, folded over the characters of the
first FEN field with the running (bitboard, file, rank) state. -/
def parseBoardField (f : List Char) : Except String BitBoard :=
  let step : (BitBoard × Nat × Nat) → Char → Except String (BitBoard × Nat × Nat) :=
    fun st c =>
      let bb := st.1
      let file := st.2.1
      let rank := st.2.2
      if c = '/' then Except.ok (bb, 0, rank - 1)
      else if c.isDigit then Except.ok (bb, file + (c.toNat - 48), rank)
      else
        let u := c.toUpper
        let pos : Option Piece :=
          if u = 'K' then some Piece.King
          else if u = 'Q' then some Piece.Queen
          else if u = 'R' then some Piece.Rook
          else if u = 'B' then some Piece.Bishop
          else if u = 'N' then some Piece.Knight
          else if u = 'P' then some Piece.Pawn
          else none
        match pos with
        | some piece =>
          let color := if c.isUpper then Color.White else Color.Black
          Except.ok (bb.set_piece (rank * 8 + file) color piece, file + 1, rank)
        | none => Except.error ("Unexpected character: " ++ String.mk [c])
  (f.foldlM step (BitBoard.new, 0, 7)).map (fun st => st.1)

/-- `algebraic_to_index` of src/interface.rs on the character list of the
square name. -/
def algebraic_to_index (s : List Char) : Except String Nat :=
  match s with
  | [f, r] =>
    let fe : Except String Nat :=
      if f.isLower && (f.toNat < 97 || 104 < f.toNat) then Except.error "Alpha not in range"
      else if f.isUpper && (f.toNat < 65 || 72 < f.toNat) then Except.error "Alpha not in range"
      else if f.isLower then Except.ok (f.toNat - 97)
      else if f.isUpper then Except.ok (f.toNat - 65)
      else Except.error ""
    match fe with
    | Except.error e => Except.error e
    | Except.ok file =>
      let re : Except String Nat :=
        if r.isDigit && (56 < r.toNat || r.toNat < 49) then Except.error "Numeric not in range"
        else if r.isDigit then Except.ok (r.toNat - 49)
        else Except.error ""
      match re with
      | Except.error e => Except.error e
      | Except.ok rank =>
        let index := rank * 8 + file
        if 64 ≤ index then Except.error "" else Except.ok index
  | _ => Except.error "len = 2"

/-- Rust `str::parse` for an unsigned integer type with the given maximum:
an optional leading plus sign, then one or more ASCII digits, rejecting
overflow.  `none` is the parse error. -/
def parseUIntR (limit : Nat) (s : List Char) : Option Nat :=
  let cs := match s with
    | '+' :: rest => rest
    | cs => cs
  if cs.isEmpty then none
  else if cs.all Char.isDigit then
    let v := cs.foldl (fun a c => a * 10 + (c.toNat - 48)) 0
    if v ≤ limit then some v else none
  else none

/-- `BitBoardState::from_fen`.  The outer `Option` distinguishes a panic
(`none`, the `unwrap` on the halfmove and fullmove counters) from a returned
result; `Except.error` is the `Err` case of the source. -/
def from_fen (s : String) : Option (Except String BitBoardState) :=
  let fs := asciiFields s
  match fs.head? with
  | none => some (Except.error "FEN is empty")
  | some f1 =>
    match parseBoardField f1 with
    | Except.error e => some (Except.error e)
    | Except.ok bitboard =>
      let active_color := if fs.getD 1 ['w'] = ['b'] then Color.Black else Color.White
      let cstr := fs.getD 2 ['K', 'Q', 'k', 'q']
      let castling := 0
      let castling := if cstr.contains 'K' then castling ||| CASTLE_WHITE_KING else castling
      let castling := if cstr.contains 'Q' then castling ||| CASTLE_WHITE_QUEEEN else castling
      let castling := if cstr.contains 'k' then castling ||| CASTLE_BLACK_KING else castling
      let castling := if cstr.contains 'q' then castling ||| CASTLE_BLACK_QUEEN else castling
      let epstr := fs.getD 3 ['-']
      let en_passant := match algebraic_to_index epstr with
        | Except.ok v => v
        | Except.error _ => 64
      match parseUIntR 255 (fs.getD 4 ['0']) with
      | none => none
      | some half_moves =>
        match parseUIntR 65535 (fs.getD 5 ['1']) with
        | none => none
        | some full_moves =>
          some (Except.ok { bitboard := bitboard, active_color := active_color,
                            castling := castling, en_passant := en_passant,
                            half_moves := half_moves, full_moves := full_moves })

/-! Evaluation (src/evaluation.rs). -/

def piece_value : Piece → Int
  | Piece.King => 0
  | Piece.Queen => 900
  | Piece.Rook => 500
  | Piece.Bishop => 300
  | Piece.Knight => 300
  | Piece.Pawn => 100

/-- Reinterpret a 64-bit word as a signed 64-bit value, the Rust `as i64`. -/
def i64OfWord (n : Nat) : Int :=
  if n < 2 ^ 63 then (n : Int) else (n : Int) - 2 ^ 64

/-- `evaluate_bitboard`: the source adds the raw pawn population count (with
no piece-value factor), the value-weighted counts of the other pieces, and
ten times the wrapping difference of the two generated move counts. -/
def evaluate_bitboard (state : BitBoardState) (evaluate_color : Color) : Int :=
  let opposite_color := match evaluate_color with
    | Color.White => Color.Black
    | Color.Black => Color.White
  let value : Int := 0
  let value := value + (countOnes (state.bitboard.get_set evaluate_color Piece.Pawn) : Int)
  let value := value + (countOnes (state.bitboard.get_set evaluate_color Piece.Rook) : Int) *
    piece_value Piece.Rook
  let value := value + (countOnes (state.bitboard.get_set evaluate_color Piece.Bishop) : Int) *
    piece_value Piece.Bishop
  let value := value + (countOnes (state.bitboard.get_set evaluate_color Piece.Knight) : Int) *
    piece_value Piece.Knight
  let value := value + (countOnes (state.bitboard.get_set evaluate_color Piece.Queen) : Int) *
    piece_value Piece.Queen
  let value := value - (countOnes (state.bitboard.get_set opposite_color Piece.Pawn) : Int)
  let value := value - (countOnes (state.bitboard.get_set opposite_color Piece.Rook) : Int) *
    piece_value Piece.Rook
  let value := value - (countOnes (state.bitboard.get_set opposite_color Piece.Bishop) : Int) *
    piece_value Piece.Bishop
  let value := value - (countOnes (state.bitboard.get_set opposite_color Piece.Knight) : Int) *
    piece_value Piece.Knight
  let value := value - (countOnes (state.bitboard.get_set opposite_color Piece.Queen) : Int) *
    piece_value Piece.Queen
  let our_moves := (generate_moves { state with active_color := evaluate_color }).length
  let their_moves := (generate_moves { state with active_color := opposite_color }).length
  let move_val := 10 * i64OfWord ((our_moves + 2 ^ 64 - their_moves) % 2 ^ 64)
  value + move_val

/-- Modelled from the spec: static evaluation from the side-to-move
perspective is material of that side minus material of the opponent, with
values Pawn 100, Knight 300, Bishop 300, Rook 500, Queen 900, King 0, plus
mobility weight 10 times the difference of the legal move counts of the two
sides. -/
def specEvaluation (state : BitBoardState) (c : Color) : Int :=
  let opp := match c with
    | Color.White => Color.Black
    | Color.Black => Color.White
  let material := fun (col : Color) =>
    100 * (countOnes (state.bitboard.get_set col Piece.Pawn) : Int) +
    300 * (countOnes (state.bitboard.get_set col Piece.Knight) : Int) +
    300 * (countOnes (state.bitboard.get_set col Piece.Bishop) : Int) +
    500 * (countOnes (state.bitboard.get_set col Piece.Rook) : Int) +
    900 * (countOnes (state.bitboard.get_set col Piece.Queen) : Int) +
    0 * (countOnes (state.bitboard.get_set col Piece.King) : Int)
  material c - material opp +
    10 * (((generate_moves { state with active_color := c }).length : Int) -
      ((generate_moves { state with active_color := opp }).length : Int))

/-! The precomputed attack tables of src/bitboard.rs.  The source fills BOTH
arrays with `knight_attacks2`. -/

/-- `KING_ATTACKS[i]` as initialised by the source const block. -/
def KING_ATTACKS (i : Nat) : Nat := knight_attacks2 (1 <<< i)

/-- `KNIGHT_ATTACKS[i]` as initialised by the source const block. -/
def KNIGHT_ATTACKS (i : Nat) : Nat := knight_attacks2 (1 <<< i)

/-- Modelled from the spec: the bitboard of the up-to-eight squares a king
standing on square i attacks, one step in each of the eight directions. -/
def kingAttacksSpec (i : Nat) : Nat :=
  (List.range 64).foldl (fun acc j =>
    let dr := max (i / 8) (j / 8) - min (i / 8) (j / 8)
    let df := max (i % 8) (j % 8) - min (i % 8) (j % 8)
    if max dr df = 1 then acc ||| (1 <<< j) else acc) 0

/-- Modelled from the spec: the bitboard of the up-to-eight squares a knight
standing on square i attacks. -/
def knightAttacksSpec (i : Nat) : Nat :=
  (List.range 64).foldl (fun acc j =>
    let dr := max (i / 8) (j / 8) - min (i / 8) (j / 8)
    let df := max (i % 8) (j % 8) - min (i % 8) (j % 8)
    if (dr = 1 ∧ df = 2) ∨ (dr = 2 ∧ df = 1) then acc ||| (1 <<< j) else acc) 0

/-! A spec-level attack relation, used to state check conditions
independently of the generator internals. -/

/-- Modelled from the spec (standard chess attack rules): does a piece of the
given color and kind on square s attack square t under occupancy occ.  White
pawns attack one rank up, black pawns one rank down; sliders need every
square strictly between s and t to be empty. -/
def pieceAttacksSpec (occ : Nat) (c : Color) (p : Piece) (s t : Nat) : Bool :=
  let rs := s / 8
  let fs := s % 8
  let rt := t / 8
  let ft := t % 8
  let dr := max rs rt - min rs rt
  let df := max fs ft - min fs ft
  let lineClear : Bool :=
    (List.range 64).all (fun j =>
      let rj := j / 8
      let fj := j % 8
      let strictlyBetween :=
        ((rj = rs ∧ rs = rt ∧ min fs ft < fj ∧ fj < max fs ft) ∨
         (fj = fs ∧ fs = ft ∧ min rs rt < rj ∧ rj < max rs rt) ∨
         (dr = df ∧ (max rs rj - min rs rj) = (max fs fj - min fs fj) ∧
           (max rt rj - min rt rj) = (max ft fj - min ft fj) ∧
           min rs rt < rj ∧ rj < max rs rt ∧ min fs ft < fj ∧ fj < max fs ft))
      if strictlyBetween then occ &&& (1 <<< j) = 0 else true)
  if s = t then false else
  match p with
  | Piece.King => max dr df = 1
  | Piece.Knight => (dr = 1 ∧ df = 2) ∨ (dr = 2 ∧ df = 1)
  | Piece.Pawn =>
    (match c with
     | Color.White => rt = rs + 1 ∧ df = 1
     | Color.Black => rs = rt + 1 ∧ df = 1)
  | Piece.Rook => (rs = rt ∨ fs = ft) ∧ lineClear
  | Piece.Bishop => dr = df ∧ lineClear
  | Piece.Queen => (rs = rt ∨ fs = ft ∨ dr = df) ∧ lineClear

/-- Modelled from the spec: how many pieces of the given color attack square
t on the given board. -/
def attackersCount (bb : BitBoard) (byColor : Color) (t : Nat) : Nat :=
  let occ := bb.occupied_squares
  (List.range 64).foldl (fun acc s =>
    let one := fun (p : Piece) =>
      if bb.get_set byColor p &&& (1 <<< s) ≠ 0 ∧ pieceAttacksSpec occ byColor p s t = true
      then 1 else 0
    acc + one Piece.King + one Piece.Queen + one Piece.Rook + one Piece.Bishop +
      one Piece.Knight + one Piece.Pawn) 0

/-! The mailbox board of src/board.rs and src/move_gen.rs. -/

/-- The move flags of src/move_gen.rs. -/
inductive MoveFlag where
  | EnPassantCapture
  | CastlingQueen
  | CastlingKnight
  | PromoteQueen
  | PromoteKnight
  | PromoteBishop
  | PromoteRook
  | InitialMove
deriving DecidableEq

/-- The `Move` struct of src/move_gen.rs. -/
structure Move where
  start_index : Nat
  end_index : Nat
  flag : Option MoveFlag
deriving DecidableEq

/-- The `PartialEq` instance of `Move`: the source compares only the start
and end squares, never the flag. -/
def moveEq (m1 m2 : Move) : Bool :=
  m1.start_index == m2.start_index && m1.end_index == m2.end_index

/-- The undo record of src/board.rs. -/
structure MoveHistory where
  piece_taken : Option (Color × Piece)
  starting_location : Nat
  ending_location : Nat
  castling : Nat
  half_moves : Nat
  en_passant : Option Nat
deriving DecidableEq

/-- The `Board` struct of src/board.rs; the mailbox is a total function on
square indices, `en_passant` models the `Option<NonZeroU8>` field and
`half_moves`, `full_moves` are `usize`. -/
structure Board where
  history : List MoveHistory
  pieces : Nat → Option (Color × Piece)
  bit_board : BitBoard
  active_color : Color
  castling : Nat
  en_passant : Option Nat
  half_moves : Nat
  full_moves : Nat

/-- Rust `NonZeroU8::new` on a byte value. -/
def nonZeroU8 (v : Nat) : Option Nat :=
  if v % 256 = 0 then none else some (v % 256)

/-- Pointwise update of the mailbox. -/
def setSquare (ps : Nat → Option (Color × Piece)) (i : Nat) (v : Option (Color × Piece)) :
    Nat → Option (Color × Piece) :=
  fun j => if j = i then v else ps j

/-- `Board::move_piece`, transliterated: push the undo record, bump or reset
the halfmove clock, handle en passant, promotion and the side flip.  The
source never touches `bit_board` here, and all its castling bookkeeping is
commented out. -/
def Board.move_piece (b : Board) (m : Move) : Board :=
  let hist : MoveHistory :=
    { piece_taken := b.pieces m.end_index
      starting_location := m.start_index
      ending_location := m.end_index
      castling := b.castling
      half_moves := b.half_moves % 256
      en_passant := b.en_passant }
  let history := b.history ++ [hist]
  let half_moves := (b.half_moves + 1) % 2 ^ 64
  let half_moves := if (b.pieces m.end_index).isSome then 0 else half_moves
  let new_piece := b.pieces m.start_index
  let step :=
    match b.pieces m.start_index with
    | some (color, Piece.Pawn) =>
      let pieces :=
        match b.en_passant with
        | some en_passant =>
          if en_passant = m.end_index then
            match color with
            | Color.White => setSquare b.pieces (m.end_index - 8) none
            | Color.Black => setSquare b.pieces (m.end_index + 8) none
          else b.pieces
        | none => b.pieces
      let en_passant :=
        if (m.start_index / 8 = 1 ∧ m.end_index / 8 = 3) ∨
           (m.start_index / 8 = 6 ∧ m.end_index / 8 = 4) then
          nonZeroU8 ((m.start_index + m.end_index) / 2)
        else none
      let new_piece :=
        match m.flag with
        | some MoveFlag.PromoteQueen => some (color, Piece.Queen)
        | some MoveFlag.PromoteKnight => some (color, Piece.Knight)
        | some MoveFlag.PromoteBishop => some (color, Piece.Bishop)
        | some MoveFlag.PromoteRook => some (color, Piece.Rook)
        | _ => new_piece
      (pieces, en_passant, new_piece, (0 : Nat))
    | _ => (b.pieces, none, new_piece, half_moves)
  let pieces := setSquare step.1 m.end_index step.2.2.1
  let pieces := setSquare pieces m.start_index none
  let active_color := match b.active_color with
    | Color.White => Color.Black
    | Color.Black => Color.White
  let full_moves := match b.active_color with
    | Color.White => b.full_moves
    | Color.Black => (b.full_moves + 1) % 2 ^ 64
  { b with
    history := history
    pieces := pieces
    active_color := active_color
    en_passant := step.2.1
    half_moves := step.2.2.2
    full_moves := full_moves }

/-! The search driver of src/search.rs.  Its transposition table is created
by `Vec::with_capacity`, hence empty; the `zobrist_hash` method it calls on
`BitBoardState` is not defined anywhere in the crate, so the hash is taken
abstractly as a parameter.  The outer `Option` of each result models a panic:
reducing an index modulo the zero table length, or indexing the empty table,
aborts the program. -/

structure SearchDriver where
  transposition_table : List Int

/-- `SearchDriver::new`: the table has capacity but length zero, whatever
the requested size and the time-seeded zobrist values. -/
def SearchDriver.new : SearchDriver := { transposition_table := [] }

def i64Min : Int := -(2 ^ 63)
def i64Max : Int := 2 ^ 63 - 1

/-- The move loop of `alpha_beta_max` (and, mirrored, `alpha_beta_min`):
apply each move with a side change, recurse, prune. -/
def abLoop (isMax : Bool)
    (step : SearchDriver → BitBoardState → Int → Int → Option (SearchDriver × Int))
    (d : SearchDriver) (alpha beta : Int) :
    List Nat → BitBoardState → Option (SearchDriver × Int)
  | [], _ => some (d, if isMax then alpha else beta)
  | m :: rest, b =>
    match step d ((b.apply_move m).change_side) alpha beta with
    | none => none
    | some (d2, score) =>
      if isMax then
        if beta ≤ score then some (d2, beta)
        else abLoop isMax step d2 (if alpha < score then score else alpha) beta rest b
      else
        if score ≤ alpha then some (d2, alpha)
        else abLoop isMax step d2 alpha (if score < beta then score else beta) rest b

/-- One alpha-beta layer: `isMax` selects between `alpha_beta_max` and
`alpha_beta_min` of the source, which are mirror images; `zob` stands for
the undefined `zobrist_hash`. -/
def alpha_beta (zob : BitBoardState → Nat) :
    Bool → SearchDriver → BitBoardState → Color → Int → Int → Nat →
    Option (SearchDriver × Int)
  | isMax, d, b, color, alpha, beta, 0 =>
    let eval := if isMax then evaluate_bitboard b color else -evaluate_bitboard b color
    let table_len := d.transposition_table.length
    if table_len = 0 then none
    else
      let _ := (alpha, beta)
      some ({ d with transposition_table :=
                d.transposition_table.set (zob b % table_len) eval }, eval)
  | isMax, d, b, color, alpha, beta, depth + 1 =>
    let table_len := d.transposition_table.length
    if table_len = 0 then none
    else
      let cached := d.transposition_table.getD (zob b % table_len) 0
      if cached ≠ 0 then some (d, cached)
      else abLoop isMax
        (fun d2 b2 a2 bet2 => alpha_beta zob (!isMax) d2 b2 color a2 bet2 depth)
        d alpha beta (generate_moves b) b

/-- The collection loop of `evaluate_moves`: each root move is applied
(without a side change, as in the source) and scored by `alpha_beta_max`
from the same driver state, mirroring the parallel map. -/
def evalMovesGo (zob : BitBoardState → Nat) (d : SearchDriver) (b : BitBoardState)
    (depth : Nat) : List Nat → Option (List (Int × Nat))
  | [] => some []
  | m :: rest =>
    match alpha_beta zob true d (b.apply_move m) b.active_color i64Min i64Max depth with
    | none => none
    | some r =>
      match evalMovesGo zob d b depth rest with
      | none => none
      | some l => some ((r.2, m) :: l)

/-- `SearchDriver::evaluate_moves`. -/
def evaluate_moves (zob : BitBoardState → Nat) (d : SearchDriver) (b : BitBoardState)
    (depth : Nat) : Option (List (Int × Nat)) :=
  evalMovesGo zob d b depth (generate_moves b)

/-- `BinaryHeap::pop`: the maximal entry by value, the first such in case of
ties (tie order is unspecified in the source). -/
def heapPopMax : List (Int × Nat) → Option (Int × Nat)
  | [] => none
  | p :: rest =>
    match heapPopMax rest with
    | none => some p
    | some q => if q.1 ≤ p.1 then some p else some q

/-- `SearchDriver::best_move`: pop the best root move and unwrap; the unwrap
of an empty heap is a panic, hence `none`. -/
def best_move (zob : BitBoardState → Nat) (d : SearchDriver) (b : BitBoardState)
    (depth : Nat) : Option Nat :=
  match evaluate_moves zob d b depth with
  | none => none
  | some mvs => (heapPopMax mvs).map (fun p => p.2)

/-! Helper lemmas. -/

theorem sumByte0 (c0 c1 c2 c3 c4 c5 c6 c7 : Nat)
    (h0 : c0 < 256) (h1 : c1 < 256) (h2 : c2 < 256) (h3 : c3 < 256)
    (h4 : c4 < 256) (h5 : c5 < 256) (h6 : c6 < 256) (h7 : c7 < 256) :
    (c0 + c1 * 2 ^ 8 + c2 * 2 ^ 16 + c3 * 2 ^ 24 + c4 * 2 ^ 32 + c5 * 2 ^ 40 +
      c6 * 2 ^ 48 + c7 * 2 ^ 56) % 256 = c0 := by omega

theorem sumByte1 (c0 c1 c2 c3 c4 c5 c6 c7 : Nat)
    (h0 : c0 < 256) (h1 : c1 < 256) (h2 : c2 < 256) (h3 : c3 < 256)
    (h4 : c4 < 256) (h5 : c5 < 256) (h6 : c6 < 256) (h7 : c7 < 256) :
    (c0 + c1 * 2 ^ 8 + c2 * 2 ^ 16 + c3 * 2 ^ 24 + c4 * 2 ^ 32 + c5 * 2 ^ 40 +
      c6 * 2 ^ 48 + c7 * 2 ^ 56) / 2 ^ 8 % 256 = c1 := by omega

theorem sumByte2 (c0 c1 c2 c3 c4 c5 c6 c7 : Nat)
    (h0 : c0 < 256) (h1 : c1 < 256) (h2 : c2 < 256) (h3 : c3 < 256)
    (h4 : c4 < 256) (h5 : c5 < 256) (h6 : c6 < 256) (h7 : c7 < 256) :
    (c0 + c1 * 2 ^ 8 + c2 * 2 ^ 16 + c3 * 2 ^ 24 + c4 * 2 ^ 32 + c5 * 2 ^ 40 +
      c6 * 2 ^ 48 + c7 * 2 ^ 56) / 2 ^ 16 % 256 = c2 := by omega

theorem sumByte3 (c0 c1 c2 c3 c4 c5 c6 c7 : Nat)
    (h0 : c0 < 256) (h1 : c1 < 256) (h2 : c2 < 256) (h3 : c3 < 256)
    (h4 : c4 < 256) (h5 : c5 < 256) (h6 : c6 < 256) (h7 : c7 < 256) :
    (c0 + c1 * 2 ^ 8 + c2 * 2 ^ 16 + c3 * 2 ^ 24 + c4 * 2 ^ 32 + c5 * 2 ^ 40 +
      c6 * 2 ^ 48 + c7 * 2 ^ 56) / 2 ^ 24 % 256 = c3 := by omega

theorem sumByte4 (c0 c1 c2 c3 c4 c5 c6 c7 : Nat)
    (h0 : c0 < 256) (h1 : c1 < 256) (h2 : c2 < 256) (h3 : c3 < 256)
    (h4 : c4 < 256) (h5 : c5 < 256) (h6 : c6 < 256) (h7 : c7 < 256) :
    (c0 + c1 * 2 ^ 8 + c2 * 2 ^ 16 + c3 * 2 ^ 24 + c4 * 2 ^ 32 + c5 * 2 ^ 40 +
      c6 * 2 ^ 48 + c7 * 2 ^ 56) / 2 ^ 32 % 256 = c4 := by omega

theorem sumByte5 (c0 c1 c2 c3 c4 c5 c6 c7 : Nat)
    (h0 : c0 < 256) (h1 : c1 < 256) (h2 : c2 < 256) (h3 : c3 < 256)
    (h4 : c4 < 256) (h5 : c5 < 256) (h6 : c6 < 256) (h7 : c7 < 256) :
    (c0 + c1 * 2 ^ 8 + c2 * 2 ^ 16 + c3 * 2 ^ 24 + c4 * 2 ^ 32 + c5 * 2 ^ 40 +
      c6 * 2 ^ 48 + c7 * 2 ^ 56) / 2 ^ 40 % 256 = c5 := by omega

theorem sumByte6 (c0 c1 c2 c3 c4 c5 c6 c7 : Nat)
    (h0 : c0 < 256) (h1 : c1 < 256) (h2 : c2 < 256) (h3 : c3 < 256)
    (h4 : c4 < 256) (h5 : c5 < 256) (h6 : c6 < 256) (h7 : c7 < 256) :
    (c0 + c1 * 2 ^ 8 + c2 * 2 ^ 16 + c3 * 2 ^ 24 + c4 * 2 ^ 32 + c5 * 2 ^ 40 +
      c6 * 2 ^ 48 + c7 * 2 ^ 56) / 2 ^ 48 % 256 = c6 := by omega

theorem sumByte7 (c0 c1 c2 c3 c4 c5 c6 c7 : Nat)
    (h0 : c0 < 256) (h1 : c1 < 256) (h2 : c2 < 256) (h3 : c3 < 256)
    (h4 : c4 < 256) (h5 : c5 < 256) (h6 : c6 < 256) (h7 : c7 < 256) :
    (c0 + c1 * 2 ^ 8 + c2 * 2 ^ 16 + c3 * 2 ^ 24 + c4 * 2 ^ 32 + c5 * 2 ^ 40 +
      c6 * 2 ^ 48 + c7 * 2 ^ 56) / 2 ^ 56 % 256 = c7 := by omega

/-- Byte reversal is an involution on 64-bit words. -/
theorem swapBytes_swapBytes (x : Nat) (h : x < 2 ^ 64) :
    swapBytes (swapBytes x) = x := by
  have h0 : x / 2 ^ 56 % 256 < 256 := Nat.mod_lt _ (by norm_num)
  have h1 : x / 2 ^ 48 % 256 < 256 := Nat.mod_lt _ (by norm_num)
  have h2 : x / 2 ^ 40 % 256 < 256 := Nat.mod_lt _ (by norm_num)
  have h3 : x / 2 ^ 32 % 256 < 256 := Nat.mod_lt _ (by norm_num)
  have h4 : x / 2 ^ 24 % 256 < 256 := Nat.mod_lt _ (by norm_num)
  have h5 : x / 2 ^ 16 % 256 < 256 := Nat.mod_lt _ (by norm_num)
  have h6 : x / 2 ^ 8 % 256 < 256 := Nat.mod_lt _ (by norm_num)
  have h7 : x % 256 < 256 := Nat.mod_lt _ (by norm_num)
  unfold swapBytes
  rw [sumByte0 _ _ _ _ _ _ _ _ h0 h1 h2 h3 h4 h5 h6 h7,
      sumByte1 _ _ _ _ _ _ _ _ h0 h1 h2 h3 h4 h5 h6 h7,
      sumByte2 _ _ _ _ _ _ _ _ h0 h1 h2 h3 h4 h5 h6 h7,
      sumByte3 _ _ _ _ _ _ _ _ h0 h1 h2 h3 h4 h5 h6 h7,
      sumByte4 _ _ _ _ _ _ _ _ h0 h1 h2 h3 h4 h5 h6 h7,
      sumByte5 _ _ _ _ _ _ _ _ h0 h1 h2 h3 h4 h5 h6 h7,
      sumByte6 _ _ _ _ _ _ _ _ h0 h1 h2 h3 h4 h5 h6 h7,
      sumByte7 _ _ _ _ _ _ _ _ h0 h1 h2 h3 h4 h5 h6 h7]
  omega

/-- All twelve boards of a bitboard are 64-bit words. -/
def WordBounded (bb : BitBoard) : Prop :=
  bb.wK < 2 ^ 64 ∧ bb.wQ < 2 ^ 64 ∧ bb.wR < 2 ^ 64 ∧ bb.wB < 2 ^ 64 ∧
  bb.wN < 2 ^ 64 ∧ bb.wP < 2 ^ 64 ∧ bb.bK < 2 ^ 64 ∧ bb.bQ < 2 ^ 64 ∧
  bb.bR < 2 ^ 64 ∧ bb.bB < 2 ^ 64 ∧ bb.bN < 2 ^ 64 ∧ bb.bP < 2 ^ 64

instance (bb : BitBoard) : Decidable (WordBounded bb) := by
  unfold WordBounded; infer_instance

/-- `flip_board` is an involution on bounded boards. -/
theorem flip_flip (bb : BitBoard) (h : WordBounded bb) :
    bb.flip_board.flip_board = bb := by
  obtain ⟨e1, e2, e3, e4, e5, e6, e7, e8, e9, e10, e11, e12⟩ := h
  cases bb
  simp only [BitBoard.flip_board, BitBoard.mk.injEq] at *
  exact ⟨swapBytes_swapBytes _ e1, swapBytes_swapBytes _ e2, swapBytes_swapBytes _ e3,
    swapBytes_swapBytes _ e4, swapBytes_swapBytes _ e5, swapBytes_swapBytes _ e6,
    swapBytes_swapBytes _ e7, swapBytes_swapBytes _ e8, swapBytes_swapBytes _ e9,
    swapBytes_swapBytes _ e10, swapBytes_swapBytes _ e11, swapBytes_swapBytes _ e12⟩

/-- The en-passant square is missing or lies on the third or sixth rank. -/
def EpValid (e : Nat) : Prop :=
  (16 ≤ e ∧ e < 24) ∨ (40 ≤ e ∧ e < 48) ∨ e = 64

instance (e : Nat) : Decidable (EpValid e) := by
  unfold EpValid; infer_instance

theorem mirrorEp_mirrorEp_fin :
    ∀ p : Fin 64, (16 ≤ p.val ∧ p.val < 24) ∨ (40 ≤ p.val ∧ p.val < 48) →
      BitBoardState.mirrorEp (BitBoardState.mirrorEp p.val) = p.val := by decide

/-- Mirroring the en-passant square twice is the identity on valid values. -/
theorem mirrorEp_mirrorEp (e : Nat) (h : EpValid e) :
    BitBoardState.mirrorEp (BitBoardState.mirrorEp e) = e := by
  rcases h with h | h | h
  · exact mirrorEp_mirrorEp_fin ⟨e, by omega⟩ (Or.inl h)
  · exact mirrorEp_mirrorEp_fin ⟨e, by omega⟩ (Or.inr h)
  · subst h; decide

theorem mirrorCastling_mirrorCastling_fin :
    ∀ p : Fin 64, BitBoardState.mirrorCastling (BitBoardState.mirrorCastling p.val) = p.val := by
  decide

/-- Swapping the two castling nibbles twice is the identity below 64. -/
theorem mirrorCastling_mirrorCastling (c : Nat) (h : c < 64) :
    BitBoardState.mirrorCastling (BitBoardState.mirrorCastling c) = c :=
  mirrorCastling_mirrorCastling_fin ⟨c, h⟩

/-- `apply_move` never touches the color to move or the two counters. -/
theorem apply_move_frame (s : BitBoardState) (m : Nat) :
    (s.apply_move m).active_color = s.active_color ∧
    (s.apply_move m).half_moves = s.half_moves ∧
    (s.apply_move m).full_moves = s.full_moves := by
  rcases h : s.bitboard.get_piece (bbmFrom m) with _ | ⟨color, piece⟩ <;>
    simp [BitBoardState.apply_move, h]

/-- `change_side` always increments the halfmove clock. -/
theorem change_side_half_moves (s : BitBoardState) :
    s.change_side.half_moves = (s.half_moves + 1) % 256 := by
  unfold BitBoardState.change_side
  split <;> simp

/-- Claim C9: mirror is its own inverse.  For every position satisfying the
section 3 invariants (boards are 64-bit words, the castling byte uses only
its six flag bits, and the en-passant target is either absent or lies on the
third or sixth rank), applying mirror_board twice yields the original
position in every field. -/
theorem c9_mirror_involution (s : BitBoardState) (hb : WordBounded s.bitboard)
    (hc : s.castling < 64) (he : EpValid s.en_passant) :
    s.mirror_board.mirror_board = s := by
  cases s with
  | mk bb ac ca ep hm fm =>
    simp only [BitBoardState.mirror_board]
    rw [flip_flip bb hb, mirrorCastling_mirrorCastling ca hc, mirrorEp_mirrorEp ep he]

/-- Every alpha-beta call from a fresh driver aborts: the transposition
table is empty, so the modulo of the hash by the table length is a division
by zero. -/
theorem alpha_beta_new_none (zob : BitBoardState → Nat) (isMax : Bool)
    (b : BitBoardState) (c : Color) (alpha beta : Int) (depth : Nat) :
    alpha_beta zob isMax SearchDriver.new b c alpha beta depth = none := by
  cases depth <;> simp [alpha_beta, SearchDriver.new]

/-- `from_fen` aborts (rather than returning `Err`) whenever the board field
parses but the halfmove or fullmove counter field does not parse as an
unsigned integer. -/
theorem from_fen_counter_panic (fen : String) (f1 : List Char) (bb : BitBoard)
    (h1 : (asciiFields fen).head? = some f1)
    (h2 : parseBoardField f1 = Except.ok bb)
    (h3 : parseUIntR 255 ((asciiFields fen).getD 4 ['0']) = none ∨
          parseUIntR 65535 ((asciiFields fen).getD 5 ['1']) = none) :
    from_fen fen = none := by
  rcases h3 with h3 | h3
  · simp only [from_fen, h1, h2, h3]
  · rcases h4 : parseUIntR 255 ((asciiFields fen).getD 4 ['0']) with _ | hm
    · simp only [from_fen, h1, h2, h4]
    · simp only [from_fen, h1, h2, h3, h4]

/-- Does a pawn stand on the given square of the mailbox. -/
def isPawnAt (b : Board) (i : Nat) : Bool :=
  match b.pieces i with
  | some (_, Piece.Pawn) => true
  | _ => false

/-- The halfmove clock after `Board::move_piece`: zero after a pawn move or
a capture, incremented otherwise. -/
theorem move_piece_half_moves (b : Board) (m : Move) :
    (b.move_piece m).half_moves =
      if isPawnAt b m.start_index ∨ (b.pieces m.end_index).isSome
      then 0 else (b.half_moves + 1) % 2 ^ 64 := by
  rcases h : b.pieces m.start_index with _ | ⟨c, p⟩
  · rcases h2 : b.pieces m.end_index with _ | q <;>
      simp [Board.move_piece, isPawnAt, h, h2]
  · cases p <;> rcases h2 : b.pieces m.end_index with _ | q <;>
      simp [Board.move_piece, isPawnAt, h, h2]

/-- The low twelve bits of an encoded move. -/
theorem bbmNew_and_mask (f t g : Nat) :
    bbmNew f t g &&& 0x0fff = (t &&& 0x3f) ||| ((f &&& 0x3f) <<< 6) := by
  unfold bbmNew
  rw [Nat.and_distrib_right, Nat.and_distrib_right]
  have hlit : (0x0fff : Nat) = 2 ^ 12 - 1 := by norm_num
  have e1 : (t &&& 0x3f) &&& 0x0fff = t &&& 0x3f := by
    rw [Nat.and_assoc]
    rfl
  have e2 : ((f &&& 0x3f) <<< 6) &&& 0x0fff = (f &&& 0x3f) <<< 6 := by
    rw [hlit]
    refine Nat.and_pow_two_sub_one_of_lt_two_pow ?_
    have hf : f &&& 0x3f ≤ 0x3f := Nat.and_le_right
    rw [Nat.shiftLeft_eq]
    calc (f &&& 0x3f) * 2 ^ 6 ≤ 0x3f * 2 ^ 6 := Nat.mul_le_mul_right _ hf
    _ < 2 ^ 12 := by norm_num
  have e3 : ((g &&& 0xf) <<< 12) &&& 0x0fff = 0 := by
    rw [hlit, Nat.shiftLeft_eq, Nat.and_pow_two_sub_one_eq_mod]
    exact Nat.mul_mod_left _ _
  rw [e1, e2, e3, Nat.or_zero]

/-- `bbmEq` compares the words modulo 4096: only destination and origin. -/
theorem bbmEq_iff_mod (m1 m2 : Nat) :
    bbmEq m1 m2 = true ↔ m1 % 4096 = m2 % 4096 := by
  unfold bbmEq
  have e1 := Nat.and_pow_two_sub_one_eq_mod m1 12
  have e2 := Nat.and_pow_two_sub_one_eq_mod m2 12
  norm_num at e1 e2
  rw [e1, e2, beq_iff_eq]

/-! Concrete positions used by the claim theorems. -/

/-- Projection of `from_fen` onto the success case, for stating facts about
concrete parsed positions. -/
def fenOk (f : String) : Option BitBoardState :=
  match from_fen f with
  | some (Except.ok s) => some s
  | _ => none

/-- The standard starting position. -/
def startPos : BitBoardState :=
  { bitboard := { wK := 0x10, wQ := 0x8, wR := 0x81, wB := 0x24, wN := 0x42, wP := 0xFF00,
                  bK := 0x1000000000000000, bQ := 0x0800000000000000, bR := 0x8100000000000000,
                  bB := 0x2400000000000000, bN := 0x4200000000000000, bP := 0x00FF000000000000 },
    active_color := Color.White, castling := 63, en_passant := 64,
    half_moves := 0, full_moves := 1 }

/-- FEN k7/8/8/5Pp1/r6K/8/6n1/8 w - g6 0 1: the white king on h4 is attacked
by the rook on a4, the knight on g2 and the pawn on g5, with the en-passant
target g6 open to the pawn on f5. -/
def doubleCheckPos : BitBoardState :=
  { bitboard := { wK := 0x0000000080000000, wQ := 0, wR := 0, wB := 0, wN := 0,
                  wP := 0x0000002000000000,
                  bK := 0x0100000000000000, bQ := 0, bR := 0x0000000001000000, bB := 0,
                  bN := 0x0000000000004000, bP := 0x0000004000000000 },
    active_color := Color.White, castling := 0, en_passant := 46,
    half_moves := 0, full_moves := 1 }

/-- FEN 4k3/8/8/8/8/8/P7/4K3 w - - 0 1: bare kings plus one white pawn. -/
def evalPos : BitBoardState :=
  { bitboard := { wK := 0x10, wQ := 0, wR := 0, wB := 0, wN := 0, wP := 0x100,
                  bK := 0x1000000000000000, bQ := 0, bR := 0, bB := 0, bN := 0, bP := 0 },
    active_color := Color.White, castling := 0, en_passant := 64,
    half_moves := 0, full_moves := 1 }

/-- FEN 7k/5K2/6Q1/8/8/8/8/8 b - - 0 1: Black to move is stalemated. -/
def stalematePos : BitBoardState :=
  { bitboard := { wK := 0x0020000000000000, wQ := 0x0000400000000000, wR := 0, wB := 0,
                  wN := 0, wP := 0,
                  bK := 0x8000000000000000, bQ := 0, bR := 0, bB := 0, bN := 0, bP := 0 },
    active_color := Color.Black, castling := 0, en_passant := 64,
    half_moves := 0, full_moves := 1 }

/-- FEN k7/8/8/8/8/8/p7/R6K w KQkq - 7 10: the rook on a1 can capture the
pawn on a2 with the halfmove clock at 7. -/
def c5Pos : BitBoardState :=
  { bitboard := { wK := 0x80, wQ := 0, wR := 1, wB := 0, wN := 0, wP := 0,
                  bK := 0x0100000000000000, bQ := 0, bR := 0, bB := 0, bN := 0, bP := 0x100 },
    active_color := Color.White, castling := 63, en_passant := 64,
    half_moves := 7, full_moves := 10 }

/-! Claim theorems. -/

/-- Claim C2: the spec requires that under double check every generated move
originates from the king square.  The code violates this: at doubleCheckPos
three black pieces attack the white king on h4 (square 31), yet the
generator also returns the en-passant capture from f5 (square 37) to g6
(square 46), because the en-passant targets are never masked by the check
mask.  The position satisfies the section 3 invariants. -/
theorem c2_double_check_ep_leak :
    fenOk "k7/8/8/5Pp1/r6K/8/6n1/8 w - g6 0 1" = some doubleCheckPos ∧
    trailingZeros (doubleCheckPos.bitboard.get_set Color.White Piece.King) = 31 ∧
    2 ≤ attackersCount doubleCheckPos.bitboard Color.Black 31 ∧
    (generate_moves doubleCheckPos).contains (bbmNew 37 46 0) = true ∧
    bbmFrom (bbmNew 37 46 0) ≠ 31 := by decide!

/-- Claim C3: the spec gives pawns material value 100, but evaluate_bitboard
adds the raw pawn population count without the piece-value factor.  At
evalPos (one extra white pawn, White has 7 legal moves and Black 5) the code
returns 1 + 10 * 2 = 21 while the spec formula gives 100 + 10 * 2 = 120. -/
theorem c3_pawn_weight_divergence :
    fenOk "4k3/8/8/8/8/8/P7/4K3 w - - 0 1" = some evalPos ∧
    piece_value Piece.Pawn = 100 ∧
    (generate_moves { evalPos with active_color := Color.White }).length = 7 ∧
    (generate_moves { evalPos with active_color := Color.Black }).length = 5 ∧
    evaluate_bitboard evalPos Color.White = 21 ∧
    specEvaluation evalPos Color.White = 120 := by decide!

/-- Claim C4, counterexample: two moves with the same origin and destination
but different promotion flags compare equal under both PartialEq
implementations, though their encodings (and flags) differ, refuting the
claim that equality compares all sixteen bits. -/
theorem c4_move_equality_counterexample :
    bbmEq (bbmNew 12 28 QUITE_MOVE) (bbmNew 12 28 QUEEN_PROMOTION) = true ∧
    bbmNew 12 28 QUITE_MOVE ≠ bbmNew 12 28 QUEEN_PROMOTION ∧
    moveEq { start_index := 12, end_index := 28, flag := none }
      { start_index := 12, end_index := 28, flag := some MoveFlag.PromoteQueen } = true ∧
    ({ start_index := 12, end_index := 28, flag := none } : Move) ≠
      { start_index := 12, end_index := 28, flag := some MoveFlag.PromoteQueen } := by decide

/-- Claim C4, amended: equality on BitBoardMove compares only the low twelve
bits (destination and origin); the four flag bits are ignored, so moves
differing only in the promotion flag are equal.  Likewise Move equality
compares only the start and end squares, ignoring the flag. -/
theorem c4_move_equality_low_bits :
    (∀ m1 m2 : Nat, (bbmEq m1 m2 = true ↔ m1 % 4096 = m2 % 4096)) ∧
    (∀ f t g1 g2 : Nat, bbmEq (bbmNew f t g1) (bbmNew f t g2) = true) ∧
    (∀ m1 m2 : Move,
      (moveEq m1 m2 = true ↔ m1.start_index = m2.start_index ∧ m1.end_index = m2.end_index)) := by
  refine ⟨bbmEq_iff_mod, ?_, ?_⟩
  · intro f t g1 g2
    simp [bbmEq, bbmNew_and_mask]
  · intro m1 m2
    simp [moveEq, Bool.and_eq_true, beq_iff_eq]

/-- Claim C5, counterexample: on the bitboard path the halfmove clock is
never reset.  At c5Pos the rook capture a1xa2 is a capture (a black pawn
stands on the destination), yet after apply_move and change_side the
halfmove clock is 8, not 0. -/
theorem c5_halfmove_counterexample :
    fenOk "k7/8/8/8/8/8/p7/R6K w KQkq - 7 10" = some c5Pos ∧
    c5Pos.bitboard.get_piece 8 = some (Color.Black, Piece.Pawn) ∧
    c5Pos.half_moves = 7 ∧
    ((c5Pos.apply_move (bbmNew 0 8 CAPTURE)).change_side).half_moves = 8 ∧
    ((c5Pos.apply_move (bbmNew 0 8 CAPTURE)).change_side).half_moves ≠ 0 := by decide!

/-- Claim C5, amended: after apply_move and change_side on BitBoardState the
halfmove clock is always the old value plus one (mod 256), never reset; on
Board, move_piece resets the clock to zero exactly when the moving piece is
a pawn or the destination square is occupied, and increments it (as a
usize) otherwise. -/
theorem c5_halfmove_behavior :
    (∀ (s : BitBoardState) (m : Nat),
      ((s.apply_move m).change_side).half_moves = (s.half_moves + 1) % 256) ∧
    (∀ (b : Board) (m : Move),
      (b.move_piece m).half_moves =
        if isPawnAt b m.start_index ∨ (b.pieces m.end_index).isSome then 0
        else (b.half_moves + 1) % 2 ^ 64) := by
  constructor
  · intro s m
    rw [change_side_half_moves, (apply_move_frame s m).2.1]
  · exact move_piece_half_moves

/-- Claim C6, counterexample: best_move does not return a distinguished
no-move value on a stalemate; it panics (modelled by `none`) unwrapping the
empty heap, and even with twenty legal moves from the start position it
panics because the alpha-beta recursion reduces the hash modulo the length
of the empty transposition table. -/
theorem c6_best_move_counterexample :
    fenOk "7k/5K2/6Q1/8/8/8/8/8 b - - 0 1" = some stalematePos ∧
    generate_moves stalematePos = [] ∧
    best_move (fun _ => 0) SearchDriver.new stalematePos 1 = none ∧
    fenOk "rnbqkbnr/pppppppp/8/8/8/8/PPPPPPPP/RNBQKBNR w KQkq - 0 1" = some startPos ∧
    (generate_moves startPos).length = 20 ∧
    best_move (fun _ => 0) SearchDriver.new startPos 1 = none := by decide!

/-- Claim C6, amended: best_move never returns a move on any position, any
depth and any hash function: with no legal moves it panics unwrapping the
empty heap, and otherwise the first alpha-beta call panics on the empty
transposition table. -/
theorem c6_best_move_always_aborts (zob : BitBoardState → Nat) (b : BitBoardState)
    (depth : Nat) : best_move zob SearchDriver.new b depth = none := by
  unfold best_move evaluate_moves
  rcases hg : generate_moves b with _ | ⟨m, rest⟩
  · simp [evalMovesGo, heapPopMax]
  · simp [evalMovesGo, alpha_beta_new_none]

/-- Claim C7, counterexample: a FEN whose halfmove field is present but not
numeric makes from_fen panic on the unwrap (modelled by `none`) instead of
returning an Err value. -/
theorem c7_counter_panic_counterexample :
    (from_fen "8/8/8/8/8/8/8/8 w KQkq - x 1").isNone = true := by decide

/-- Claim C7, amended: from_fen returns Err for malformed piece placement,
but when the board field parses and the halfmove or fullmove field is
present and does not parse as an unsigned integer of the target width, the
source unwraps the parse result and panics instead of returning Err. -/
theorem c7_from_fen_counter_panic (fen : String) (f1 : List Char) (bb : BitBoard)
    (h1 : (asciiFields fen).head? = some f1)
    (h2 : parseBoardField f1 = Except.ok bb)
    (h3 : parseUIntR 255 ((asciiFields fen).getD 4 ['0']) = none ∨
          parseUIntR 65535 ((asciiFields fen).getD 5 ['1']) = none) :
    from_fen fen = none := by
  rcases h3 with h3 | h3
  · simp only [from_fen, h1, h2, h3]
  · rcases h4 : parseUIntR 255 ((asciiFields fen).getD 4 ['0']) with _ | hm
    · simp only [from_fen, h1, h2, h4]
    · simp only [from_fen, h1, h2, h3, h4]

/-- Witness for claim C7: the concrete FEN with the non-numeric halfmove
field satisfies the hypotheses and from_fen panics on it. -/
theorem c7_from_fen_counter_panic_witness :
    (asciiFields "8/8/8/8/8/8/8/8 w KQkq - x 1").head? = some ("8/8/8/8/8/8/8/8").data ∧
    parseBoardField ("8/8/8/8/8/8/8/8").data = Except.ok BitBoard.new ∧
    parseUIntR 255 ((asciiFields "8/8/8/8/8/8/8/8 w KQkq - x 1").getD 4 ['0']) = none ∧
    from_fen "8/8/8/8/8/8/8/8 w KQkq - x 1" = none := by
  have h1 : (asciiFields "8/8/8/8/8/8/8/8 w KQkq - x 1").head? =
      some ("8/8/8/8/8/8/8/8").data := by rfl
  have h2 : parseBoardField ("8/8/8/8/8/8/8/8").data = Except.ok BitBoard.new := by rfl
  have h3 : parseUIntR 255 ((asciiFields "8/8/8/8/8/8/8/8 w KQkq - x 1").getD 4 ['0']) =
      none := by rfl
  exact ⟨h1, h2, h3, c7_from_fen_counter_panic _ _ _ h1 h2 (Or.inl h3)⟩

/-- Claim C8: the KNIGHT_ATTACKS table matches the spec description of
knight attacks on every square, but the KING_ATTACKS table is filled with
knight_attacks2 as well: on square 0 it holds the knight pattern 0x20400
(squares b3 and c2) instead of the king one-step set 0x302 (squares b1, a2
and b2). -/
theorem c8_attack_tables :
    (∀ i : Fin 64, KNIGHT_ATTACKS i.val = knightAttacksSpec i.val) ∧
    (∀ i : Fin 64, KING_ATTACKS i.val = knightAttacksSpec i.val) ∧
    KING_ATTACKS 0 = 0x20400 ∧ kingAttacksSpec 0 = 0x302 ∧
    KING_ATTACKS 0 ≠ kingAttacksSpec 0 := by decide!

/-- Witness for claim C9: the starting position satisfies the hypotheses
and double mirroring returns it unchanged. -/
theorem c9_mirror_involution_witness :
    WordBounded startPos.bitboard ∧ startPos.castling < 64 ∧ EpValid startPos.en_passant ∧
    startPos.mirror_board.mirror_board = startPos :=
  ⟨by decide, by decide, by decide,
    c9_mirror_involution startPos (by decide) (by decide) (by decide)⟩

/-- Claim C10: apply_move changes only the piece bitboards, the castling
byte and the en-passant field; the color to move and the two counters are
untouched on every state and move. -/
theorem c10_apply_move_frame : ∀ (s : BitBoardState) (m : Nat),
    (s.apply_move m).active_color = s.active_color ∧
    (s.apply_move m).half_moves = s.half_moves ∧
    (s.apply_move m).full_moves = s.full_moves := apply_move_frame

/-- Validation of the embedded move generator: perft from the parsed
starting position matches the well-known node counts at depths 0 to 2 (the
deeper counts grow beyond feasible proof-checking time; evaluating the same
definitions also reproduces 8,902 at depth 3 and 197,281 at depth 4). -/
theorem perft_start_low_depths :
    fenOk "rnbqkbnr/pppppppp/8/8/8/8/PPPPPPPP/RNBQKBNR w KQkq - 0 1" = some startPos ∧
    perft startPos 0 = 1 ∧ perft startPos 1 = 20 ∧
    perft startPos 2 = 400 := by decide!

/-- FEN 4k3/6p1/8/5P2/8/8/8/4K3 b - - 0 1: Black can double push g7g5 past
the white pawn on f5. -/
def epDemoPos : BitBoardState :=
  { bitboard := { wK := 0x10, wQ := 0, wR := 0, wB := 0, wN := 0,
                  wP := 0x0000002000000000,
                  bK := 0x1000000000000000, bQ := 0, bR := 0, bB := 0, bN := 0,
                  bP := 0x0040000000000000 },
    active_color := Color.Black, castling := 0, en_passant := 64,
    half_moves := 0, full_moves := 1 }

/-- Claim C1: apply_move records the en-passant square as origin plus eight
for every double push, which is correct for White (e2e4 yields e3, square
20) but wrong for Black: after the generated double push g7g5 the state
carries en-passant square 62 (g8, off both pawn ranks, violating the
section 3 invariant) instead of 46 (g6), and the legal capture f5xg6 en
passant is absent from the reply list (no generated move targets square
46).  Every depth-5 en-passant leaf of the starting position follows a
Black double push, so all 258 of them are lost and the pipeline counts
4,865,351 instead of the claimed 4,865,609. -/
theorem c1_black_ep_square_bug :
    fenOk "4k3/6p1/8/5P2/8/8/8/4K3 b - - 0 1" = some epDemoPos ∧
    (generate_moves epDemoPos).contains (bbmNew 54 38 DOUBLE_PAWN_PUSH) = true ∧
    ((epDemoPos.apply_move (bbmNew 54 38 DOUBLE_PAWN_PUSH)).change_side).en_passant = 62 ∧
    ¬ EpValid 62 ∧
    (generate_moves ((epDemoPos.apply_move (bbmNew 54 38 DOUBLE_PAWN_PUSH)).change_side)).all
      (fun m => bbmTo m ≠ 46) = true ∧
    ((startPos.apply_move (bbmNew 12 28 DOUBLE_PAWN_PUSH)).change_side).en_passant = 20 ∧
    EpValid 20 := by decide!

end ChessAI
